import Mathlib

/-!
# go-backend: authentication core

A shallow embedding of the authentication code of the repository
(`controllers/auth_controller.go`, `middleware/jwt_middleware.go`,
`utils/jwt.go`, `utils/validation.go`, `utils/hash.go`, `utils/response.go`,
`models/user.go`, `repositories/user_repository.go`), of the handlers of
`controllers/user_controller.go` and `controllers/customer_controller.go`
that it touches (UpdateUser, GetAllUsers, GetAllCustomers), and theorems
about them.

Conventions of the embedding.

* A Go `(T, error)` result is `Except String T`; a bare `error` is
  `Except String Unit`.
* `time.Now()` is an explicit argument `now`, in nanoseconds since the epoch.
* The injected interfaces (`UserRepositoryInterface`, `PasswordHasher`) are
  structures of functions; the store behind the repository is an explicit
  state that every handler receives and returns.
* Third-party libraries (golang-jwt, the gin binding validator, GORM/MySQL)
  are parameters of the embedding.  Reference instances of them are given
  for evaluating the handlers on concrete requests.
* Every handler returns, next to its HTTP response and the new store, the
  list of calls it made on the injected interfaces.
-/

namespace GoBackend

/-! ## Strings -/

/-- Go `strings.Split(s, sep)` for a one-character separator, on the
characters of `s`: the pieces between the separators, in order (never empty:
a string without separator gives one piece). -/
def splitChars (sep : Char) : List Char → List (List Char)
  | [] => [[]]
  | c :: cs =>
    if c = sep then [] :: splitChars sep cs
    else
      match splitChars sep cs with
      | [] => [[c]]
      | p :: ps => (c :: p) :: ps

/-- Go `strings.Split(s, sep)` for a one-character separator. -/
def Split (s : String) (sep : Char) : List String :=
  (splitChars sep s.data).map String.mk

/-- Characters of `s` after the leading `p`, when `s` starts with `p`. -/
def dropLeading : List Char → List Char → Option (List Char)
  | [], s => some s
  | _ :: _, [] => none
  | p :: ps, c :: cs => if p = c then dropLeading ps cs else none

/-- Go `strings.TrimPrefix(s, p)`: `s` without the leading `p` if it starts
with `p`, and `s` itself otherwise. -/
def TrimPrefix (s p : String) : String :=
  match dropLeading p.data s.data with
  | some rest => String.mk rest
  | none => s

/-- Go `len(s)` of a string: its length in bytes of the UTF-8 encoding. -/
def byteLen (s : String) : Nat :=
  (s.data.map Char.utf8Size).sum

/-- Go `utf8.RuneCountInString(s)`. -/
def runeCount (s : String) : Nat :=
  s.data.length

/-! ## utils/validation.go -/

/-- The class `[a-zA-Z]`. -/
def isAsciiLetter (c : Char) : Bool :=
  (decide ('a' ≤ c) && decide (c ≤ 'z')) || (decide ('A' ≤ c) && decide (c ≤ 'Z'))

/-- The class `[0-9]`. -/
def isAsciiDigit (c : Char) : Bool :=
  decide ('0' ≤ c) && decide (c ≤ '9')

/-- The class `[a-zA-Z0-9._%+-]` of the local part. -/
def isLocalChar (c : Char) : Bool :=
  isAsciiLetter c || isAsciiDigit c || c == '.' || c == '_' || c == '%' || c == '+' || c == '-'

/-- The class `[a-zA-Z0-9.-]` of the domain. -/
def isDomainChar (c : Char) : Bool :=
  isAsciiLetter c || isAsciiDigit c || c == '.' || c == '-'

/-- Match of `[a-zA-Z0-9.-]+\.[a-zA-Z]{2,}$` against the whole of `rest`.
The last group has no dot, so the literal dot is the last dot of `rest`:
what follows it is two or more letters, what precedes it is a non-empty run
of domain characters. -/
def matchDomain (rest : List Char) : Bool :=
  let r := rest.reverse
  let tld := r.takeWhile (fun c => c != '.')
  match r.dropWhile (fun c => c != '.') with
  | [] => false
  | _ :: d => !d.isEmpty && d.all isDomainChar && decide (2 ≤ tld.length) && tld.all isAsciiLetter

/-- IsValidEmail: `regexp.MustCompile(re).MatchString(email)` for the
anchored pattern
`^[a-zA-Z0-9._%+-]+@[a-zA-Z0-9.-]+\.[a-zA-Z]{2,}$`.
Neither class contains `@`, so a match has exactly one `@`. -/
def IsValidEmail (email : String) : Bool :=
  match splitChars '@' email.data with
  | [loc, rest] => !loc.isEmpty && loc.all isLocalChar && matchDomain rest
  | _ => false

/-- The `for _, char := range password` loop of IsValidPassword: the pair
`(hasUpper, hasDigit)` after the loop, started from the given pair. -/
def scanPassword : List Char → Bool × Bool → Bool × Bool
  | [], acc => acc
  | c :: cs, (hasUpper, hasDigit) =>
    if 'A' ≤ c ∧ c ≤ 'Z' then scanPassword cs (true, hasDigit)
    else if '0' ≤ c ∧ c ≤ '9' then scanPassword cs (hasUpper, true)
    else scanPassword cs (hasUpper, hasDigit)

/-- IsValidPassword checks if a password is strong (min 8 chars, 1 uppercase,
1 number).  `len(password)` is the length in bytes. -/
def IsValidPassword (password : String) : Bool :=
  if byteLen password < 8 then false
  else
    let r := scanPassword password.data (false, false)
    r.1 && r.2

/-- ValidateUserInput checks if email and password are valid. -/
def ValidateUserInput (email password : String) : Except String Unit :=
  if !IsValidEmail email then
    .error "invalid email format"
  else if !IsValidPassword password then
    .error "password must be at least 8 characters, include 1 uppercase letter and 1 number"
  else
    .ok ()

/-! ## models/user.go -/

/-- User struct represents a user in the system.  The time stamps are in
nanoseconds; `DeletedAt` is `none` for a live row (`gorm.DeletedAt`). -/
structure User where
  ID : Nat
  Name : String
  Email : String
  Password : String
  Role : String
  Token : String
  CreatedAt : Nat
  UpdatedAt : Nat
  DeletedAt : Option Nat
deriving DecidableEq

/-- The Go zero value `models.User{}`. -/
def User.zero : User :=
  { ID := 0, Name := "", Email := "", Password := "", Role := "", Token := "",
    CreatedAt := 0, UpdatedAt := 0, DeletedAt := none }

/-! ## models/customer.go -/

/-- Customer struct represents a customer in the system. -/
structure Customer where
  ID : Nat
  Name : String
  Email : String
  Phone : String
  Address : String
  CreatedAt : Nat
  UpdatedAt : Nat
  DeletedAt : Option Nat
deriving DecidableEq

/-! ## utils/response.go -/

/-- A value in the `data` object of a response: a string, a user record
(whose JSON rendering leaves out the members tagged `json:"-"`), a list of
users or of customers, or a number. -/
inductive Value where
  | text (s : String)
  | user (u : User)
  | users (us : List User)
  | customers (cs : List Customer)
  | number (n : Int)
deriving DecidableEq

/-- The JSON answer of a handler: the HTTP status and the members of the body.
`data` is absent when the Go value is nil (`omitempty`); `errors` is the
member that only SendValidationError writes. -/
structure Response where
  status : Nat
  success : Bool
  message : String
  code : Nat
  data : Option (List (String × Value))
  errors : Option String
deriving DecidableEq

/-- SendSuccess sends a success response (HTTP 200). -/
def SendSuccess (message : String) (data : Option (List (String × Value))) : Response :=
  { status := 200, success := true, message := message, code := 200, data := data, errors := none }

/-- SendCreated sends a success response with HTTP 201. -/
def SendCreated (message : String) (data : Option (List (String × Value))) : Response :=
  { status := 201, success := true, message := message, code := 201, data := data, errors := none }

/-- SendValidationError sends a validation error response (HTTP 400). -/
def SendValidationError (message : String) (errors : String) : Response :=
  { status := 400, success := false, message := message, code := 400, data := none,
    errors := some errors }

/-- SendUnauthorized sends a 401 Unauthorized response. -/
def SendUnauthorized (message : String) : Response :=
  { status := 401, success := false, message := message, code := 401, data := none, errors := none }

/-- SendNotFound sends a 404 Not Found response. -/
def SendNotFound (message : String) : Response :=
  { status := 404, success := false, message := message, code := 404, data := none, errors := none }

/-- SendInternalServerError sends a 500 Internal Server Error response. -/
def SendInternalServerError (message : String) : Response :=
  { status := 500, success := false, message := message, code := 500, data := none, errors := none }

/-! ## utils/jwt.go -/

/-- Claims struct (custom JWT payload).  Of the embedded
`jwt.RegisteredClaims` only `ExpiresAt` is ever set by this code; it is a
`NumericDate`, in whole seconds. -/
structure Claims where
  UserID : Nat
  Username : String
  Role : String
  ExpiresAt : Option Nat
deriving DecidableEq

/-- What `jwt.ParseWithClaims` hands back when it reports no error: the
claims and the `Valid` flag of the `*jwt.Token`. -/
structure ParsedToken where
  Claims : Claims
  Valid : Bool
deriving DecidableEq

/-- The golang-jwt library as used by utils/jwt.go, with HS256 fixed.
`SignedString key claims` is `jwt.NewWithClaims(jwt.SigningMethodHS256,
claims).SignedString(key)`; `ParseWithClaims key now tokenString` is
`jwt.ParseWithClaims(tokenString, &Claims{}, keyfunc)` for the key function
that returns `key`, run at time `now`. -/
structure JWT where
  SignedString : String → Claims → Except String String
  ParseWithClaims : String → Nat → String → Except String ParsedToken

/-- What the handlers read from the process and from third-party code: the
JWT library, the package variable `jwtSecret` (the value of the environment
variable JWT_SECRET, empty when it is not set) and the `email` rule of the
gin binding validator. -/
structure Runtime where
  jwt : JWT
  jwtSecret : String
  emailTag : String → Bool

/-- One `time.Second`, in nanoseconds. -/
def second : Nat := 1000000000

/-- One `time.Hour`, in nanoseconds. -/
def hour : Nat := 3600 * second

/-- Library function `jwt.NewNumericDate(t)`: the time truncated to the
precision of a NumericDate, whole seconds. -/
def NewNumericDate (t : Nat) : Nat :=
  t / second

/-- GenerateToken creates a JWT token for authentication. -/
def GenerateToken (rt : Runtime) (now : Nat) (userID : Nat) (username role : String) :
    Except String String :=
  let expirationTime := now + 24 * hour
  let claims : Claims :=
    { UserID := userID, Username := username, Role := role,
      ExpiresAt := some (NewNumericDate expirationTime) }
  match rt.jwt.SignedString rt.jwtSecret claims with
  | .error err => .error ("failed to sign token: " ++ err)
  | .ok signedToken => .ok signedToken

/-- ValidateToken verifies a JWT token and extracts the claims. -/
def ValidateToken (rt : Runtime) (now : Nat) (tokenString : String) : Except String Claims :=
  match rt.jwt.ParseWithClaims rt.jwtSecret now tokenString with
  | .error _ => .error "invalid token"
  | .ok token =>
    if !token.Valid then .error "invalid token claims"
    else .ok token.Claims

/-! ## utils/hash.go -/

/-- PasswordHasher defines an interface for password hashing.  The first
argument of `HashPassword` is the randomness the call draws for its salt. -/
structure PasswordHasher where
  HashPassword : Nat → String → Except String String
  ComparePasswords : String → String → Except String Unit

/-! ## repositories/user_repository.go -/

/-- UserRepositoryInterface, the methods the authentication controller
calls, over a store of type `σ`.  A write returns the new store or the error;
`FindByEmail` only reads.  The first argument of a write is the time at which
it runs (GORM stamps the row). -/
structure UserRepositoryInterface (σ : Type) where
  CreateUser : Nat → σ → User → Except String σ
  FindByEmail : σ → String → Except String User
  UpdateUser : Nat → σ → User → Except String σ

/-! ## Request binding (gin `ShouldBindJSON`) -/

/-- The anonymous request struct of RegisterUser and LoginUser. -/
structure Credentials where
  Email : String
  Password : String
deriving DecidableEq

/-- A request body after JSON decoding into the request struct: the decoding
error, or the fields (a member that is absent from the JSON leaves the zero
value, the empty string). -/
abbrev Body := Except String Credentials

/-- Text of one validator field error. -/
def fieldError (field tag : String) : String :=
  "Key: '" ++ field ++ "' Error:Field validation for '" ++ field ++
    "' failed on the '" ++ tag ++ "' tag"

/-- The tag of `binding:"required,email"` that `email` fails, if any. -/
def checkEmailField (rt : Runtime) (email : String) : Option String :=
  if email = "" then some "required"
  else if !rt.emailTag email then some "email"
  else none

/-- The tag of `binding:"required"` (`minLen = none`) or
`binding:"required,min=n"` (`minLen = some n`) that `password` fails, if any.
The validator measures `min` on a string in runes. -/
def checkPasswordField (minLen : Option Nat) (password : String) : Option String :=
  if password = "" then some "required"
  else
    match minLen with
    | some n => if runeCount password < n then some "min" else none
    | none => none

/-- The call `c.ShouldBindJSON(&req)`: decoding, then the binding tags of the
two fields. -/
def ShouldBindJSON (rt : Runtime) (minLen : Option Nat) (body : Body) :
    Except String Credentials :=
  match body with
  | .error err => .error err
  | .ok req =>
    match checkEmailField rt req.Email, checkPasswordField minLen req.Password with
    | none, none => .ok req
    | some t, none => .error (fieldError "Email" t)
    | none, some t => .error (fieldError "Password" t)
    | some t₁, some t₂ => .error (fieldError "Email" t₁ ++ "\n" ++ fieldError "Password" t₂)

/-! ## controllers/auth_controller.go -/

deriving instance DecidableEq for Except

/-- A call made by a handler on one of its injected interfaces, with what the
call returned. -/
inductive Call where
  | HashPassword (password : String) (res : Except String String)
  | ComparePasswords (hashedPassword plainPassword : String) (res : Except String Unit)
  | CreateUser (user : User) (res : Except String Unit)
  | FindByEmail (email : String) (res : Except String User)
  | UpdateUser (user : User) (res : Except String Unit)
deriving DecidableEq

/-- Result of a repository write without the store. -/
def writeResult (r : Except String σ) : Except String Unit :=
  match r with
  | .error e => .error e
  | .ok _ => .ok ()

/-- What a handler leaves behind: the response it sent, the store, and the
calls it made, in order. -/
structure Outcome (σ : Type) where
  resp : Response
  store : σ
  calls : List Call

/-- AuthController struct. -/
structure AuthController (σ : Type) where
  UserRepo : UserRepositoryInterface σ
  Hasher : PasswordHasher

/-- RegisterUser handles user registration. -/
def RegisterUser (ctrl : AuthController σ) (rt : Runtime) (now salt : Nat) (body : Body)
    (s : σ) : Outcome σ :=
  match ShouldBindJSON rt (some 8) body with
  | .error err => ⟨SendValidationError "Invalid request data" err, s, []⟩
  | .ok req =>
    let hashed := ctrl.Hasher.HashPassword salt req.Password
    match hashed with
    | .error _ =>
      ⟨SendInternalServerError "Failed to hash password", s,
        [.HashPassword req.Password hashed]⟩
    | .ok hashedPassword =>
      let user : User := { User.zero with Email := req.Email, Password := hashedPassword }
      let created := ctrl.UserRepo.CreateUser now s user
      match created with
      | .error _ =>
        ⟨SendInternalServerError "Failed to create user", s,
          [.HashPassword req.Password hashed, .CreateUser user (writeResult created)]⟩
      | .ok s' =>
        ⟨SendCreated "User registered successfully" (some [("email", .text user.Email)]), s',
          [.HashPassword req.Password hashed, .CreateUser user (writeResult created)]⟩

/-- LoginUser handles user authentication. -/
def LoginUser (ctrl : AuthController σ) (rt : Runtime) (now : Nat) (body : Body) (s : σ) :
    Outcome σ :=
  match ShouldBindJSON rt none body with
  | .error err => ⟨SendValidationError "Invalid request data" err, s, []⟩
  | .ok req =>
    -- Validate input
    match ValidateUserInput req.Email req.Password with
    | .error err => ⟨SendValidationError "Validation error" err, s, []⟩
    | .ok _ =>
      -- Find user
      let found := ctrl.UserRepo.FindByEmail s req.Email
      match found with
      | .error _ =>
        ⟨SendUnauthorized "Invalid credentials", s, [.FindByEmail req.Email found]⟩
      | .ok user =>
        -- Validate password
        let compared := ctrl.Hasher.ComparePasswords user.Password req.Password
        match compared with
        | .error _ =>
          ⟨SendUnauthorized "Invalid credentials", s,
            [.FindByEmail req.Email found,
             .ComparePasswords user.Password req.Password compared]⟩
        | .ok _ =>
          -- Generate JWT token
          match GenerateToken rt now user.ID user.Email user.Role with
          | .error _ =>
            ⟨SendInternalServerError "Failed to generate token", s,
              [.FindByEmail req.Email found,
               .ComparePasswords user.Password req.Password compared]⟩
          | .ok token =>
            -- Save token in DB
            let user' : User := { user with Token := token }
            let updated := ctrl.UserRepo.UpdateUser now s user'
            match updated with
            | .error _ =>
              ⟨SendInternalServerError "Failed to update user token", s,
                [.FindByEmail req.Email found,
                 .ComparePasswords user.Password req.Password compared,
                 .UpdateUser user' (writeResult updated)]⟩
            | .ok s' =>
              ⟨SendSuccess "Login successful" (some [("token", .text token)]), s',
                [.FindByEmail req.Email found,
                 .ComparePasswords user.Password req.Password compared,
                 .UpdateUser user' (writeResult updated)]⟩

/-- LogoutUser handles user logout by removing the JWT token from the
database.  `authHeader` is `c.GetHeader("Authorization")`, the empty string
when the request has no such header. -/
def LogoutUser (ctrl : AuthController σ) (rt : Runtime) (now : Nat) (authHeader : String)
    (s : σ) : Outcome σ :=
  -- Extract token from Authorization header
  if authHeader = "" then ⟨SendUnauthorized "No token provided", s, []⟩
  else
    let token := TrimPrefix authHeader "Bearer "
    match ValidateToken rt now token with
    | .error _ => ⟨SendUnauthorized "Invalid token", s, []⟩
    | .ok claims =>
      -- Find user by email
      let found := ctrl.UserRepo.FindByEmail s claims.Username
      match found with
      | .error _ =>
        ⟨SendUnauthorized "User not found", s, [.FindByEmail claims.Username found]⟩
      | .ok user =>
        -- Clear token from DB
        let user' : User := { user with Token := "" }
        let updated := ctrl.UserRepo.UpdateUser now s user'
        match updated with
        | .error _ =>
          ⟨SendInternalServerError "Failed to logout", s,
            [.FindByEmail claims.Username found, .UpdateUser user' (writeResult updated)]⟩
        | .ok s' =>
          ⟨SendSuccess "Logout successful" none, s',
            [.FindByEmail claims.Username found, .UpdateUser user' (writeResult updated)]⟩

/-! ## controllers/user_controller.go -/

/-- UserController struct. -/
structure UserController (σ : Type) where
  UserRepo : UserRepositoryInterface σ
  Hasher : PasswordHasher

/-- UpdateUser handles updating user details by email; `userEmail` is the
`:email` parameter of the route.  The repository saves through the pointer it
is given and GORM stamps `UpdatedAt` into that struct, so the user echoed in
the response carries the time of the save. -/
def UserController.UpdateUser (ctrl : UserController σ) (rt : Runtime) (now salt : Nat)
    (userEmail : String) (body : Body) (s : σ) : Outcome σ :=
  match ShouldBindJSON rt (some 8) body with
  | .error err => ⟨SendValidationError "Invalid request data" err, s, []⟩
  | .ok req =>
    let hashed := ctrl.Hasher.HashPassword salt req.Password
    match hashed with
    | .error _ =>
      ⟨SendInternalServerError "Failed to hash password", s,
        [.HashPassword req.Password hashed]⟩
    | .ok hashedPassword =>
      let found := ctrl.UserRepo.FindByEmail s userEmail
      match found with
      | .error _ =>
        ⟨SendNotFound "User not found", s,
          [.HashPassword req.Password hashed, .FindByEmail userEmail found]⟩
      | .ok user =>
        -- Update user fields
        let user₁ : User := if req.Email ≠ "" then { user with Email := req.Email } else user
        let user₂ : User :=
          if req.Password ≠ "" then { user₁ with Password := hashedPassword } else user₁
        let updated := ctrl.UserRepo.UpdateUser now s user₂
        match updated with
        | .error _ =>
          ⟨SendInternalServerError "Failed to update user", s,
            [.HashPassword req.Password hashed, .FindByEmail userEmail found,
             .UpdateUser user₂ (writeResult updated)]⟩
        | .ok s' =>
          ⟨SendSuccess "User updated successfully"
              (some [("user", .user { user₂ with UpdatedAt := now })]), s',
            [.HashPassword req.Password hashed, .FindByEmail userEmail found,
             .UpdateUser user₂ (writeResult updated)]⟩

/-! ## Pagination (`GetAllUsers`, `GetAllCustomers`) -/

/-- The largest Go `int` (64 bits). -/
def maxInt : Int := 9223372036854775807

/-- The smallest Go `int` (64 bits). -/
def minInt : Int := -9223372036854775808

/-- The Go `int` that an arithmetic result becomes: its value modulo `2^64`
in the range from `minInt` to `maxInt`. -/
def wrapInt (x : Int) : Int :=
  (x + 9223372036854775808) % 18446744073709551616 - 9223372036854775808

/-- The two errors of `strconv.Atoi`. -/
inductive NumError where
  | ErrSyntax
  | ErrRange
deriving DecidableEq

/-- Go `strconv.Atoi(s)`: the value and the error.  An optional sign and then
one or more decimal digits are a number; anything else gives 0 and
ErrSyntax; a number outside the range of `int` gives the nearest bound and
ErrRange. -/
def Atoi (s : String) : Int × Option NumError :=
  let (neg, digits) : Bool × List Char :=
    match s.data with
    | '-' :: rest => (true, rest)
    | '+' :: rest => (false, rest)
    | cs => (false, cs)
  if digits.isEmpty || !digits.all isAsciiDigit then (0, some .ErrSyntax)
  else
    let n : Nat := digits.foldl (fun a c => 10 * a + (c.toNat - 48)) 0
    if neg then
      if 9223372036854775808 < n then (minInt, some .ErrRange) else (-(n : Int), none)
    else
      if 9223372036854775808 ≤ n then (maxInt, some .ErrRange) else ((n : Int), none)

/-- The call `c.DefaultQuery(key, defaultValue)`; `param` is the value of the
key in the query string, `none` when the key is absent. -/
def DefaultQuery (param : Option String) (defaultValue : String) : String :=
  match param with
  | some value => value
  | none => defaultValue

/-- What a listing handler leaves behind: the response it sent and the
`limit` and `offset` it passed to the repository. -/
structure ListOutcome where
  resp : Response
  limit : Int
  offset : Int
deriving DecidableEq

/-- GetAllUsers handles fetching all users with pagination.  `GetAllUsers` is
`ctrl.UserRepo.GetAllUsers` on the store as it is; `pageParam` and
`limitParam` are the query parameters `page` and `limit`. -/
def UserController.GetAllUsers (GetAllUsers : Int → Int → Except String (List User × Int))
    (pageParam limitParam : Option String) : ListOutcome :=
  let page := (Atoi (DefaultQuery pageParam "1")).1
  let limit := (Atoi (DefaultQuery limitParam "10")).1
  let offset := wrapInt (wrapInt (page - 1) * limit)
  match GetAllUsers limit offset with
  | .error _ => ⟨SendInternalServerError "Failed to fetch users", limit, offset⟩
  | .ok (users, totalCount) =>
    ⟨SendSuccess "Users fetched successfully"
        (some [("data", .users users), ("total_count", .number totalCount)]), limit, offset⟩

/-- GetAllCustomers handles fetching all customers with pagination.
`GetAllCustomers` is `ctrl.CustomerRepo.GetAllCustomers` on the store as it
is. -/
def CustomerController.GetAllCustomers
    (GetAllCustomers : Int → Int → Except String (List Customer × Int))
    (pageParam limitParam : Option String) : ListOutcome :=
  let page := (Atoi (DefaultQuery pageParam "1")).1
  let limit := (Atoi (DefaultQuery limitParam "10")).1
  let offset := wrapInt (wrapInt (page - 1) * limit)
  match GetAllCustomers limit offset with
  | .error _ => ⟨SendInternalServerError "Failed to fetch customers", limit, offset⟩
  | .ok (customers, totalCount) =>
    ⟨SendSuccess "Customers fetched successfully"
        (some [("data", .customers customers), ("total_count", .number totalCount)]),
      limit, offset⟩

/-! ## middleware/jwt_middleware.go -/

/-- The keys JWTAuthMiddleware sets on the gin context. -/
structure Context where
  userID : Option Nat
  username : Option String
  role : Option String
deriving DecidableEq

/-- What the middleware did with a request: the response it wrote (if any),
whether it called `c.Abort()`, whether it called `c.Next()`, and the context
keys it set. -/
structure GateResult where
  resp : Option Response
  aborted : Bool
  next : Bool
  ctx : Context
deriving DecidableEq

/-- The middleware rejecting a request: a 401 response, `c.Abort()`, no
`c.Next()`, nothing set on the context. -/
def reject (message : String) : GateResult :=
  { resp := some (SendUnauthorized message), aborted := true, next := false,
    ctx := { userID := none, username := none, role := none } }

/-- JWTAuthMiddleware protects routes that require authentication. -/
def JWTAuthMiddleware (rt : Runtime) (now : Nat) (authHeader : String) : GateResult :=
  if authHeader = "" then reject "Authorization header is missing"
  else
    -- Extract token from "Bearer <token>"
    match Split authHeader ' ' with
    | [scheme, tokenString] =>
      if scheme ≠ "Bearer" then reject "Invalid authorization format"
      else
        match ValidateToken rt now tokenString with
        | .error _ => reject "Invalid or expired token"
        | .ok claims =>
          -- Attach user claims to the context
          { resp := none, aborted := false, next := true,
            ctx := { userID := some claims.UserID, username := some claims.Username,
                     role := some claims.Role } }
    | _ => reject "Invalid authorization format"

/-! ## Reference instances of the parameters

Executable stand-ins for the third-party parts, used to run the handlers on
concrete requests: a token codec with the shape of a signed JWT of this
program, a password hasher in the role of a test double, and an in-memory
table with the constraints declared on `models.User`. -/

/-- Decimal digits of `n`, least significant first; the first argument bounds
their number. -/
def digitsFuel : Nat → Nat → List Nat
  | 0, _ => []
  | fuel + 1, n => if n < 10 then [n] else (n % 10) :: digitsFuel fuel (n / 10)

/-- Decimal numeral of `n`. -/
def encodeNat (n : Nat) : List Char :=
  (digitsFuel (n + 1) n).reverse.map (fun d => Char.ofNat (48 + d))

/-- Value of a decimal numeral; `none` if a character is not a digit or there
is none. -/
def decodeNat (cs : List Char) : Option Nat :=
  if cs.isEmpty then none
  else
    cs.foldl
      (fun acc c => acc.bind (fun a => if isAsciiDigit c then some (10 * a + (c.toNat - 48)) else none))
      (some 0)

/-- A string as the code points of its characters, joined by `-`. -/
def encodeText (s : String) : List Char :=
  List.intercalate ['-'] (s.data.map (fun c => encodeNat c.toNat))

/-- Inverse of `encodeText`. -/
def decodeText (cs : List Char) : Option String :=
  if cs.isEmpty then some ""
  else ((splitChars '-' cs).mapM decodeNat).map (fun ns => String.mk (ns.map Char.ofNat))

/-- Payload segment of a reference token: user id, expiry (empty when absent),
role and username, joined by `_`. -/
def encodeClaims (c : Claims) : List Char :=
  encodeNat c.UserID ++ '_' ::
    (match c.ExpiresAt with | some e => encodeNat e | none => []) ++ '_' ::
    encodeText c.Role ++ '_' :: encodeText c.Username

/-- Inverse of `encodeClaims`. -/
def decodeClaims (cs : List Char) : Option Claims :=
  match splitChars '_' cs with
  | [uid, exp, role, username] =>
    match decodeNat uid, decodeText role, decodeText username with
    | some uid, some role, some username =>
      if exp.isEmpty then
        some { UserID := uid, Username := username, Role := role, ExpiresAt := none }
      else
        (decodeNat exp).map
          (fun e => { UserID := uid, Username := username, Role := role, ExpiresAt := some e })
    | _, _, _ => none
  | _ => none

/-- Keyed checksum standing in for HMAC-SHA256 in the reference codec. -/
def checksum (key : String) (msg : List Char) : Nat :=
  (key.data ++ '.' :: msg).foldl (fun h c => (h * 131 + c.toNat + 1) % 1000000007) 7

/-- The part of a reference token that is signed: header and payload. -/
def signingInput (c : Claims) : List Char :=
  'H' :: 'S' :: '2' :: '5' :: '6' :: '.' :: encodeClaims c

/-- Reference token codec: `header.payload.signature` with the header
`HS256`, the payload of `encodeClaims` and the keyed checksum of the two as
signature.  Parsing rejects, in this order, a string that is not of that
shape, a signature that is not the checksum under the key, and a token whose
expiry is not after `now`. -/
def refJWT : JWT where
  SignedString key claims :=
    .ok (String.mk (signingInput claims ++ '.' :: encodeNat (checksum key (signingInput claims))))
  ParseWithClaims key now tokenString :=
    match splitChars '.' tokenString.data with
    | [header, payload, signature] =>
      match decodeClaims payload, decodeNat signature with
      | some claims, some sig =>
        if header ≠ ['H', 'S', '2', '5', '6'] then .error "token is malformed"
        else if sig ≠ checksum key (header ++ '.' :: payload) then
          .error "token signature is invalid"
        else
          match claims.ExpiresAt with
          | some e =>
            if now < e * second then .ok { Claims := claims, Valid := true }
            else .error "token has invalid claims: token is expired"
          | none => .ok { Claims := claims, Valid := true }
      | _, _ => .error "token is malformed"
    | _ => .error "token is malformed"

/-- Reference runtime: the reference codec, a non-empty secret, and
IsValidEmail in the place of the validator's `email` rule. -/
def refRuntime : Runtime :=
  { jwt := refJWT, jwtSecret := "s3cret", emailTag := IsValidEmail }

/-- Test double of PasswordHasher: the stored string is the salt, a `$`, and
the password; comparing checks what follows the `$`. -/
def testHasher : PasswordHasher where
  HashPassword salt password := .ok (String.mk (encodeNat salt ++ '$' :: password.data))
  ComparePasswords hashedPassword plainPassword :=
    match hashedPassword.data.dropWhile isAsciiDigit with
    | '$' :: rest =>
      if rest = plainPassword.data then .ok ()
      else .error "crypto/bcrypt: hashedPassword is not the hash of the given password"
    | _ => .error "crypto/bcrypt: hashedPassword is not the hash of the given password"

/-- The `users` table: its rows in primary-key order and the next
auto-increment value. -/
structure DB where
  rows : List User
  nextID : Nat
deriving DecidableEq

/-- The table before any registration. -/
def DB.empty : DB :=
  { rows := [], nextID := 1 }

/-- Whether writing `u` would break a unique index of the table (`Email`
unique, `Token` unique) against a row other than its own. -/
def duplicateKey (rows : List User) (u : User) : Bool :=
  rows.any (fun r => r.ID != u.ID && (r.Email == u.Email || r.Token == u.Token))

/-- CreateUser saves a new user in the database (`DB.Create`): the row gets
the next id when it has none, the default role `user` when it has none, and
its time stamps; the insert fails on a taken primary key, email or token. -/
def UserRepository.CreateUser (now : Nat) (db : DB) (user : User) : Except String DB :=
  let row : User :=
    { user with
      ID := if user.ID = 0 then db.nextID else user.ID
      Role := if user.Role = "" then "user" else user.Role
      CreatedAt := if user.CreatedAt = 0 then now else user.CreatedAt
      UpdatedAt := if user.UpdatedAt = 0 then now else user.UpdatedAt }
  if db.rows.any (fun r => r.ID == row.ID) || duplicateKey db.rows row then
    .error "Error 1062 (23000): Duplicate entry"
  else
    .ok { rows := db.rows ++ [row], nextID := max db.nextID (row.ID + 1) }

/-- FindByEmail retrieves a user by email
(`DB.Where("email = ?", email).First(&user)`): the first live row with that
email. -/
def UserRepository.FindByEmail (db : DB) (email : String) : Except String User :=
  match db.rows.find? (fun r => r.Email == email && r.DeletedAt.isNone) with
  | some user => .ok user
  | none => .error "record not found"

/-- UpdateUser updates user details (`DB.Save(user)`): all columns of the
live row with the primary key of `user` are overwritten and `UpdatedAt` is
stamped; the update fails when it would break a unique index.  When no live
row has that key the update changes nothing and GORM retries as an insert
that updates on a duplicate key: a soft-deleted row with the key is
overwritten by the columns of `user` (its `DeletedAt` too, which revives it;
the role default applies, `CreatedAt` stays), and without any row with the
key the user is inserted.  The handlers never get there, as they save a row
they have just read. -/
def UserRepository.UpdateUser (now : Nat) (db : DB) (user : User) : Except String DB :=
  if db.rows.any (fun r => r.ID == user.ID && r.DeletedAt.isNone) then
    if duplicateKey db.rows user then .error "Error 1062 (23000): Duplicate entry"
    else
      .ok { db with
            rows := db.rows.map (fun r => if r.ID = user.ID then { user with UpdatedAt := now } else r) }
  else if db.rows.any (fun r => r.ID == user.ID) then
    if duplicateKey db.rows user then .error "Error 1062 (23000): Duplicate entry"
    else
      .ok { db with
            rows := db.rows.map (fun r =>
              if r.ID = user.ID then
                { user with
                  Role := if user.Role = "" then "user" else user.Role
                  CreatedAt := r.CreatedAt
                  UpdatedAt := now }
              else r) }
  else UserRepository.CreateUser now db user

/-- UserRepository is a concrete implementation of the
UserRepositoryInterface, over the reference table. -/
def UserRepository : UserRepositoryInterface DB :=
  { CreateUser := UserRepository.CreateUser
    FindByEmail := UserRepository.FindByEmail
    UpdateUser := UserRepository.UpdateUser }

/-- The controller wired as in routes.go, over the reference table and with
the test hasher. -/
def refController : AuthController DB :=
  { UserRepo := UserRepository, Hasher := testHasher }

/-- The user controller wired as in routes.go, over the reference table and
with the test hasher. -/
def refUserController : UserController DB :=
  { UserRepo := UserRepository, Hasher := testHasher }

/-! ## A session on the reference instances

One account registers and logs in twice; the values below are the requests,
the times and the tokens of that run. -/

/-- The body `{"email":"a@b.com","password":"StrongPass1"}`. -/
def aliceBody : Body :=
  .ok { Email := "a@b.com", Password := "StrongPass1" }

/-- Time of the registration: 1000 seconds after the epoch. -/
def t₀ : Nat := 1000 * second

/-- The table after `a@b.com` has registered. -/
def dbRegistered : DB :=
  (RegisterUser refController refRuntime t₀ 7 aliceBody DB.empty).store

/-- First login of `a@b.com`, one second after the registration. -/
def firstLogin : Outcome DB :=
  LoginUser refController refRuntime (t₀ + second) aliceBody dbRegistered

/-- Second login of `a@b.com`, five seconds after the registration. -/
def secondLogin : Outcome DB :=
  LoginUser refController refRuntime (t₀ + 5 * second) aliceBody firstLogin.store

/-- The token the first login returns. -/
def firstToken : String :=
  "HS256.1_87401_117-115-101-114_97-64-98-46-99-111-109.456238781"

/-- The token the second login returns. -/
def secondToken : String :=
  "HS256.1_87405_117-115-101-114_97-64-98-46-99-111-109.607884829"

/-- The row of `a@b.com` after its registration. -/
def aliceRow : User :=
  { ID := 1, Name := "", Email := "a@b.com", Password := "7$StrongPass1", Role := "user",
    Token := "", CreatedAt := t₀, UpdatedAt := t₀, DeletedAt := none }

/-- First logout of `a@b.com`, presenting the token of its first login, two
seconds after the registration. -/
def firstLogout : Outcome DB :=
  LogoutUser refController refRuntime (t₀ + 2 * second) ("Bearer " ++ firstToken) firstLogin.store

/-- Second logout, presenting the same token one second later. -/
def secondLogout : Outcome DB :=
  LogoutUser refController refRuntime (t₀ + 3 * second) ("Bearer " ++ firstToken) firstLogout.store

/-- After its first login `a@b.com` changes its email to `c@b.com` through
`PUT /api/user/a@b.com`. -/
def emailChanged : Outcome DB :=
  UserController.UpdateUser refUserController refRuntime (t₀ + 2 * second) 8 "a@b.com"
    (.ok { Email := "c@b.com", Password := "StrongPass1" }) firstLogin.store

/-- Then another person registers with the email `a@b.com`, which is free
again. -/
def bobRegistered : Outcome DB :=
  RegisterUser refController refRuntime (t₀ + 3 * second) 9
    (.ok { Email := "a@b.com", Password := "BobsPass22" }) emailChanged.store

/-- The new account logs in. -/
def bobLogin : Outcome DB :=
  LoginUser refController refRuntime (t₀ + 4 * second)
    (.ok { Email := "a@b.com", Password := "BobsPass22" }) bobRegistered.store

/-- The claims inside `firstToken`. -/
def firstClaims : Claims :=
  { UserID := 1, Username := "a@b.com", Role := "user", ExpiresAt := some 87401 }

/-- A second registration with the email `a@b.com`, made while the account
of that email is logged in. -/
def duplicateRegistration : Outcome DB :=
  RegisterUser refController refRuntime (t₀ + 2 * second) 11
    (.ok { Email := "a@b.com", Password := "OtherPass9" }) firstLogin.store

/-- Registration of `a@b.com` with the password `abcdefgh`. -/
def weakRegistration : Outcome DB :=
  RegisterUser refController refRuntime t₀ 7
    (.ok { Email := "a@b.com", Password := "abcdefgh" }) DB.empty

/-- The token of the first login with the last digit of its signature
changed. -/
def tamperedToken : String :=
  "HS256.1_87401_117-115-101-114_97-64-98-46-99-111-109.456238782"

/-- The token issued for `a@b.com` half a second after the registration. -/
def halfSecondToken : String :=
  "HS256.1_87400_117-115-101-114_97-64-98-46-99-111-109.418327269"

/-- The reference runtime of a process started without JWT_SECRET. -/
def emptySecretRuntime : Runtime :=
  { refRuntime with jwtSecret := "" }

/-- The token issued for `a@b.com` under the empty secret, one second after
the registration. -/
def emptySecretToken : String :=
  "HS256.1_87401_117-115-101-114_97-64-98-46-99-111-109.743006879"

/-- A login of `a@b.com` four tenths of a second after its first login, in
the same second. -/
def sameSecondLogin : Outcome DB :=
  LoginUser refController refRuntime (t₀ + second + 400000000) aliceBody firstLogin.store

/-- A registration with the unused email `b@b.com`, made while `a@b.com` is
registered and has never logged in. -/
def secondRegistration : Outcome DB :=
  RegisterUser refController refRuntime (t₀ + second) 9
    (.ok { Email := "b@b.com", Password := "BobsPass22" }) dbRegistered

/-- While `a@b.com` is logged in, `c@b.com` registers. -/
def carolRegistered : Outcome DB :=
  RegisterUser refController refRuntime (t₀ + 2 * second) 9
    (.ok { Email := "c@b.com", Password := "CarolPass3" }) firstLogin.store

/-- Then `c@b.com` logs in. -/
def carolLogin : Outcome DB :=
  LoginUser refController refRuntime (t₀ + 3 * second)
    (.ok { Email := "c@b.com", Password := "CarolPass3" }) carolRegistered.store

/-- The token the login of `c@b.com` returns. -/
def carolToken : String :=
  "HS256.2_87403_117-115-101-114_99-64-98-46-99-111-109.583545105"

/-- Then `a@b.com` logs out. -/
def aliceLogout : Outcome DB :=
  LogoutUser refController refRuntime (t₀ + 4 * second) ("Bearer " ++ firstToken) carolLogin.store

/-- Then `c@b.com` logs out. -/
def carolLogout : Outcome DB :=
  LogoutUser refController refRuntime (t₀ + 5 * second) ("Bearer " ++ carolToken)
    aliceLogout.store

/-- A user repository whose table is empty. -/
def noUsers : Int → Int → Except String (List User × Int) :=
  fun _ _ => .ok ([], 0)

/-- A customer repository whose table is empty. -/
def noCustomers : Int → Int → Except String (List Customer × Int) :=
  fun _ _ => .ok ([], 0)

/-! ## Theorems -/

set_option maxRecDepth 100000

/-! ### Strings -/

theorem splitChars_of_not_mem (sep : Char) (cs : List Char) (h : sep ∉ cs) :
    splitChars sep cs = [cs] := by
  induction cs with
  | nil => rfl
  | cons c cs ih =>
    have hc : c ≠ sep := fun e => h (by simp [e])
    have hcs : sep ∉ cs := fun m => h (List.mem_cons_of_mem _ m)
    simp [splitChars, hc, ih hcs]

theorem Split_bearer (T : String) (h : ' ' ∉ T.data) :
    Split ("Bearer " ++ T) ' ' = ["Bearer", T] := by
  have hd : ("Bearer " ++ T).data = 'B' :: 'e' :: 'a' :: 'r' :: 'e' :: 'r' :: ' ' :: T.data := by
    rw [String.data_append]; rfl
  simp [Split, hd, splitChars, splitChars_of_not_mem ' ' T.data h]

theorem bearer_append_ne_empty (T : String) : "Bearer " ++ T ≠ "" := by
  intro h
  have hd : ("Bearer " ++ T).data = 'B' :: 'e' :: 'a' :: 'r' :: 'e' :: 'r' :: ' ' :: T.data := by
    rw [String.data_append]; rfl
  rw [h] at hd
  exact absurd hd (by simp)

/-! ### The gate and the store (C1) -/

/-- C1 (counterexample): in the session of `a@b.com` the first login returns
`firstToken`, the second login returns a different token and leaves that one
in the store, and still a protected request presenting `firstToken` passes the
gate (no response, `c.Next()` called); likewise `secondToken` passes the gate
after the logout that cleared it. -/
theorem gate_accepts_superseded_token :
    firstLogin.resp = SendSuccess "Login successful" (some [("token", .text firstToken)]) ∧
    secondLogin.resp = SendSuccess "Login successful" (some [("token", .text secondToken)]) ∧
    firstToken ≠ secondToken ∧
    secondLogin.store.rows.map (fun u => (u.ID, u.Token)) = [(1, secondToken)] ∧
    ValidateToken refRuntime (t₀ + 6 * second) firstToken = .ok firstClaims ∧
    JWTAuthMiddleware refRuntime (t₀ + 6 * second) ("Bearer " ++ firstToken) =
      { resp := none, aborted := false, next := true,
        ctx := { userID := some 1, username := some "a@b.com", role := some "user" } } ∧
    (LogoutUser refController refRuntime (t₀ + 7 * second) ("Bearer " ++ secondToken)
        secondLogin.store).resp = SendSuccess "Logout successful" none ∧
    (LogoutUser refController refRuntime (t₀ + 7 * second) ("Bearer " ++ secondToken)
        secondLogin.store).store.rows.map (fun u => (u.ID, u.Token)) = [(1, "")] ∧
    (JWTAuthMiddleware refRuntime (t₀ + 8 * second) ("Bearer " ++ secondToken)).next = true := by
  decide

/-- C1 (amended): the gate lets a request through whenever the header is
`Bearer ` followed by a token without a space that ValidateToken accepts at
that moment, and it attaches the claims of the token; the store is not an
input of the gate, so this holds whatever token the store holds for the
account. -/
theorem gate_passes_on_valid_token (rt : Runtime) (now : Nat) (T : String) (claims : Claims)
    (hsp : ' ' ∉ T.data) (hv : ValidateToken rt now T = .ok claims) :
    JWTAuthMiddleware rt now ("Bearer " ++ T) =
      { resp := none, aborted := false, next := true,
        ctx := { userID := some claims.UserID, username := some claims.Username,
                 role := some claims.Role } } := by
  unfold JWTAuthMiddleware
  rw [if_neg (bearer_append_ne_empty T), Split_bearer T hsp]
  simp [hv]

/-- Witness for C1 (amended): the superseded `firstToken`. -/
theorem gate_passes_on_valid_token_witness :
    ' ' ∉ firstToken.data ∧
    ValidateToken refRuntime (t₀ + 6 * second) firstToken = .ok firstClaims ∧
    JWTAuthMiddleware refRuntime (t₀ + 6 * second) ("Bearer " ++ firstToken) =
      { resp := none, aborted := false, next := true,
        ctx := { userID := some firstClaims.UserID, username := some firstClaims.Username,
                 role := some firstClaims.Role } } :=
  ⟨by decide, by decide,
    gate_passes_on_valid_token refRuntime (t₀ + 6 * second) firstToken firstClaims
      (by decide) (by decide)⟩

/-! ### Login (C2 to C5) -/

theorem LoginUser_bind_error (ctrl : AuthController σ) (rt : Runtime) (now : Nat) (body : Body)
    (s : σ) (err : String) (hb : ShouldBindJSON rt none body = .error err) :
    LoginUser ctrl rt now body s = ⟨SendValidationError "Invalid request data" err, s, []⟩ := by
  unfold LoginUser; simp [hb]

theorem LoginUser_input_error (ctrl : AuthController σ) (rt : Runtime) (now : Nat) (body : Body)
    (s : σ) (req : Credentials) (err : String) (hb : ShouldBindJSON rt none body = .ok req)
    (hv : ValidateUserInput req.Email req.Password = .error err) :
    LoginUser ctrl rt now body s = ⟨SendValidationError "Validation error" err, s, []⟩ := by
  unfold LoginUser; simp [hb, hv]

theorem LoginUser_not_found (ctrl : AuthController σ) (rt : Runtime) (now : Nat) (body : Body)
    (s : σ) (req : Credentials) (err : String) (hb : ShouldBindJSON rt none body = .ok req)
    (hv : ValidateUserInput req.Email req.Password = .ok ())
    (hf : ctrl.UserRepo.FindByEmail s req.Email = .error err) :
    LoginUser ctrl rt now body s =
      ⟨SendUnauthorized "Invalid credentials", s, [.FindByEmail req.Email (.error err)]⟩ := by
  unfold LoginUser; simp [hb, hv, hf]

theorem LoginUser_wrong_password (ctrl : AuthController σ) (rt : Runtime) (now : Nat)
    (body : Body) (s : σ) (req : Credentials) (user : User) (err : String)
    (hb : ShouldBindJSON rt none body = .ok req)
    (hv : ValidateUserInput req.Email req.Password = .ok ())
    (hf : ctrl.UserRepo.FindByEmail s req.Email = .ok user)
    (hc : ctrl.Hasher.ComparePasswords user.Password req.Password = .error err) :
    LoginUser ctrl rt now body s =
      ⟨SendUnauthorized "Invalid credentials", s,
        [.FindByEmail req.Email (.ok user),
         .ComparePasswords user.Password req.Password (.error err)]⟩ := by
  unfold LoginUser; simp [hb, hv, hf, hc]

theorem LoginUser_token_error (ctrl : AuthController σ) (rt : Runtime) (now : Nat)
    (body : Body) (s : σ) (req : Credentials) (user : User) (err : String)
    (hb : ShouldBindJSON rt none body = .ok req)
    (hv : ValidateUserInput req.Email req.Password = .ok ())
    (hf : ctrl.UserRepo.FindByEmail s req.Email = .ok user)
    (hc : ctrl.Hasher.ComparePasswords user.Password req.Password = .ok ())
    (hg : GenerateToken rt now user.ID user.Email user.Role = .error err) :
    LoginUser ctrl rt now body s =
      ⟨SendInternalServerError "Failed to generate token", s,
        [.FindByEmail req.Email (.ok user),
         .ComparePasswords user.Password req.Password (.ok ())]⟩ := by
  unfold LoginUser; simp [hb, hv, hf, hc, hg]

theorem LoginUser_update_error (ctrl : AuthController σ) (rt : Runtime) (now : Nat)
    (body : Body) (s : σ) (req : Credentials) (user : User) (token err : String)
    (hb : ShouldBindJSON rt none body = .ok req)
    (hv : ValidateUserInput req.Email req.Password = .ok ())
    (hf : ctrl.UserRepo.FindByEmail s req.Email = .ok user)
    (hc : ctrl.Hasher.ComparePasswords user.Password req.Password = .ok ())
    (hg : GenerateToken rt now user.ID user.Email user.Role = .ok token)
    (hu : ctrl.UserRepo.UpdateUser now s { user with Token := token } = .error err) :
    LoginUser ctrl rt now body s =
      ⟨SendInternalServerError "Failed to update user token", s,
        [.FindByEmail req.Email (.ok user),
         .ComparePasswords user.Password req.Password (.ok ()),
         .UpdateUser { user with Token := token } (.error err)]⟩ := by
  unfold LoginUser; simp [hb, hv, hf, hc, hg, hu, writeResult]

theorem LoginUser_success (ctrl : AuthController σ) (rt : Runtime) (now : Nat)
    (body : Body) (s s' : σ) (req : Credentials) (user : User) (token : String)
    (hb : ShouldBindJSON rt none body = .ok req)
    (hv : ValidateUserInput req.Email req.Password = .ok ())
    (hf : ctrl.UserRepo.FindByEmail s req.Email = .ok user)
    (hc : ctrl.Hasher.ComparePasswords user.Password req.Password = .ok ())
    (hg : GenerateToken rt now user.ID user.Email user.Role = .ok token)
    (hu : ctrl.UserRepo.UpdateUser now s { user with Token := token } = .ok s') :
    LoginUser ctrl rt now body s =
      ⟨SendSuccess "Login successful" (some [("token", .text token)]), s',
        [.FindByEmail req.Email (.ok user),
         .ComparePasswords user.Password req.Password (.ok ()),
         .UpdateUser { user with Token := token } (.ok ())]⟩ := by
  unfold LoginUser; simp [hb, hv, hf, hc, hg, hu, writeResult]

/-- C2: whenever LoginUser has found the account `u`, the password comparison
has succeeded and GenerateToken yields `T`, LoginUser calls UpdateUser on `u`
with only the field Token changed, to `T`; if that update succeeds the answer
is 200 "Login successful" with `data.token = T` and the store is the updated
one, if it fails the answer is 500 "Failed to update user token", without
data, and the store is as before; so the answer is 200 exactly when the
update succeeds. -/
theorem LoginUser_records_token (ctrl : AuthController σ) (rt : Runtime) (now : Nat)
    (body : Body) (s : σ) (email plain : String) (u : User) (T : String)
    (hfind : Call.FindByEmail email (.ok u) ∈ (LoginUser ctrl rt now body s).calls)
    (hcmp : Call.ComparePasswords u.Password plain (.ok ()) ∈ (LoginUser ctrl rt now body s).calls)
    (hgen : GenerateToken rt now u.ID u.Email u.Role = .ok T) :
    Call.UpdateUser { u with Token := T }
        (writeResult (ctrl.UserRepo.UpdateUser now s { u with Token := T })) ∈
      (LoginUser ctrl rt now body s).calls ∧
    (∀ s', ctrl.UserRepo.UpdateUser now s { u with Token := T } = .ok s' →
      (LoginUser ctrl rt now body s).resp =
          SendSuccess "Login successful" (some [("token", .text T)]) ∧
        (LoginUser ctrl rt now body s).store = s') ∧
    (∀ e, ctrl.UserRepo.UpdateUser now s { u with Token := T } = .error e →
      (LoginUser ctrl rt now body s).resp =
          SendInternalServerError "Failed to update user token" ∧
        (LoginUser ctrl rt now body s).resp.data = none ∧
        (LoginUser ctrl rt now body s).store = s) ∧
    ((LoginUser ctrl rt now body s).resp.status = 200 ↔
      ∃ s', ctrl.UserRepo.UpdateUser now s { u with Token := T } = .ok s') := by
  cases hb : ShouldBindJSON rt none body with
  | error err => rw [LoginUser_bind_error ctrl rt now body s err hb] at hfind; simp at hfind
  | ok req =>
    cases hv : ValidateUserInput req.Email req.Password with
    | error err => rw [LoginUser_input_error ctrl rt now body s req err hb hv] at hfind; simp at hfind
    | ok _ =>
      cases hf : ctrl.UserRepo.FindByEmail s req.Email with
      | error err =>
        rw [LoginUser_not_found ctrl rt now body s req err hb hv hf] at hfind; simp at hfind
      | ok user =>
        cases hc : ctrl.Hasher.ComparePasswords user.Password req.Password with
        | error err =>
          rw [LoginUser_wrong_password ctrl rt now body s req user err hb hv hf hc] at hcmp
          simp at hcmp
        | ok _ =>
          cases hg : GenerateToken rt now user.ID user.Email user.Role with
          | error err =>
            rw [LoginUser_token_error ctrl rt now body s req user err hb hv hf hc hg] at hfind
            simp at hfind
            obtain ⟨-, rfl⟩ := hfind
            rw [hg] at hgen
            exact absurd hgen (by simp)
          | ok token =>
            cases hu : ctrl.UserRepo.UpdateUser now s { user with Token := token } with
            | error err =>
              rw [LoginUser_update_error ctrl rt now body s req user token err hb hv hf hc hg hu]
                at hfind ⊢
              simp at hfind
              obtain ⟨-, rfl⟩ := hfind
              rw [hg] at hgen
              cases hgen
              simp [hu, writeResult, SendInternalServerError]
            | ok s' =>
              rw [LoginUser_success ctrl rt now body s s' req user token hb hv hf hc hg hu]
                at hfind ⊢
              simp at hfind
              obtain ⟨-, rfl⟩ := hfind
              rw [hg] at hgen
              cases hgen
              simp [hu, writeResult, SendSuccess]

/-- Witness for C2: the first login of `a@b.com`. -/
theorem LoginUser_records_token_witness :
    Call.FindByEmail "a@b.com" (.ok aliceRow) ∈ firstLogin.calls ∧
    Call.ComparePasswords aliceRow.Password "StrongPass1" (.ok ()) ∈ firstLogin.calls ∧
    GenerateToken refRuntime (t₀ + second) aliceRow.ID aliceRow.Email aliceRow.Role =
      .ok firstToken ∧
    Call.UpdateUser { aliceRow with Token := firstToken } (.ok ()) ∈ firstLogin.calls ∧
    firstLogin.resp = SendSuccess "Login successful" (some [("token", .text firstToken)]) :=
  ⟨by decide, by decide, by decide, by decide,
    ((LoginUser_records_token refController refRuntime (t₀ + second) aliceBody dbRegistered
      "a@b.com" "StrongPass1" aliceRow firstToken (by decide) (by decide) (by decide)).2.1
      firstLogin.store (by decide)).1⟩

theorem ShouldBindJSON_ok (rt : Runtime) (minLen : Option Nat) (body : Body) (req : Credentials)
    (h : ShouldBindJSON rt minLen body = .ok req) : body = .ok req := by
  unfold ShouldBindJSON at h
  cases body with
  | error e => simp at h
  | ok r =>
    simp only at h
    split at h <;> simp_all

/-- C3: for one and the same login request body, the response of LoginUser
when no account has the requested email equals, in status and in body, its
response when the account exists and the password does not verify against
the stored hash. -/
theorem LoginUser_same_answer_absent_or_wrong_password
    (c₁ : AuthController σ₁) (c₂ : AuthController σ₂) (rt : Runtime) (now₁ now₂ : Nat)
    (body : Body) (s₁ : σ₁) (s₂ : σ₂)
    (habsent : ∀ req, body = .ok req → ∃ e, c₁.UserRepo.FindByEmail s₁ req.Email = .error e)
    (hwrong : ∀ req, body = .ok req →
      ∃ u e, c₂.UserRepo.FindByEmail s₂ req.Email = .ok u ∧
        c₂.Hasher.ComparePasswords u.Password req.Password = .error e) :
    (LoginUser c₁ rt now₁ body s₁).resp = (LoginUser c₂ rt now₂ body s₂).resp := by
  cases hb : ShouldBindJSON rt none body with
  | error err =>
    rw [LoginUser_bind_error c₁ rt now₁ body s₁ err hb, LoginUser_bind_error c₂ rt now₂ body s₂ err hb]
  | ok req =>
    have hbody := ShouldBindJSON_ok rt none body req hb
    cases hv : ValidateUserInput req.Email req.Password with
    | error err =>
      rw [LoginUser_input_error c₁ rt now₁ body s₁ req err hb hv,
        LoginUser_input_error c₂ rt now₂ body s₂ req err hb hv]
    | ok _ =>
      obtain ⟨e₁, h₁⟩ := habsent req hbody
      obtain ⟨u, e₂, h₂, h₃⟩ := hwrong req hbody
      rw [LoginUser_not_found c₁ rt now₁ body s₁ req e₁ hb hv h₁,
        LoginUser_wrong_password c₂ rt now₂ body s₂ req u e₂ hb hv h₂ h₃]

/-- Witness for C3: the body
`{"email":"a@b.com","password":"WrongPass123"}` against the empty table and
against the table in which `a@b.com` is registered with another password. -/
theorem LoginUser_same_answer_absent_or_wrong_password_witness :
    (LoginUser refController refRuntime (t₀ + second)
        (.ok { Email := "a@b.com", Password := "WrongPass123" }) DB.empty).resp =
      (LoginUser refController refRuntime (t₀ + second)
        (.ok { Email := "a@b.com", Password := "WrongPass123" }) dbRegistered).resp :=
  LoginUser_same_answer_absent_or_wrong_password refController refController refRuntime
    (t₀ + second) (t₀ + second) (.ok { Email := "a@b.com", Password := "WrongPass123" })
    DB.empty dbRegistered
    (fun req h => by cases h; exact ⟨"record not found", by decide⟩)
    (fun req h => by
      cases h
      exact ⟨aliceRow, "crypto/bcrypt: hashedPassword is not the hash of the given password",
        by decide, by decide⟩)

/-- C4 (counterexample): the email `a@b.com` is well formed and registered, the
password `wrong` does not verify against the stored hash, and LoginUser
answers 400 "Validation error", not 401; it answers the same when no account
has the email. -/
theorem LoginUser_weak_password_is_400 :
    refRuntime.emailTag "a@b.com" = true ∧ IsValidEmail "a@b.com" = true ∧
    UserRepository.FindByEmail dbRegistered "a@b.com" = .ok aliceRow ∧
    testHasher.ComparePasswords aliceRow.Password "wrong" =
      .error "crypto/bcrypt: hashedPassword is not the hash of the given password" ∧
    (LoginUser refController refRuntime (t₀ + second)
        (.ok { Email := "a@b.com", Password := "wrong" }) dbRegistered).resp =
      SendValidationError "Validation error"
        "password must be at least 8 characters, include 1 uppercase letter and 1 number" ∧
    UserRepository.FindByEmail DB.empty "a@b.com" = .error "record not found" ∧
    (LoginUser refController refRuntime (t₀ + second)
        (.ok { Email := "a@b.com", Password := "wrong" }) DB.empty).resp.status = 400 := by
  decide

theorem ValidateUserInput_ok (email password : String) (he : IsValidEmail email = true)
    (hp : IsValidPassword password = true) : ValidateUserInput email password = .ok () := by
  simp [ValidateUserInput, he, hp]

theorem ShouldBindJSON_login_ok (rt : Runtime) (email password : String)
    (hb : rt.emailTag email = true) (he : email ≠ "") (hp : password ≠ "") :
    ShouldBindJSON rt none (.ok { Email := email, Password := password }) =
      .ok { Email := email, Password := password } := by
  simp [ShouldBindJSON, checkEmailField, checkPasswordField, hb, he, hp]

/-- C4 (amended): for every login request whose email passes the `email` rule
of the binding and IsValidEmail and whose password passes IsValidPassword, if
no account has that email or the password does not verify against the stored
hash, LoginUser answers HTTP 401 with message "Invalid credentials". -/
theorem LoginUser_invalid_credentials (ctrl : AuthController σ) (rt : Runtime) (now : Nat)
    (s : σ) (email password : String)
    (hb : rt.emailTag email = true) (he : IsValidEmail email = true)
    (hp : IsValidPassword password = true)
    (hfail : (∃ e, ctrl.UserRepo.FindByEmail s email = .error e) ∨
      ∃ u e, ctrl.UserRepo.FindByEmail s email = .ok u ∧
        ctrl.Hasher.ComparePasswords u.Password password = .error e) :
    (LoginUser ctrl rt now (.ok { Email := email, Password := password }) s).resp =
      SendUnauthorized "Invalid credentials" ∧
    (LoginUser ctrl rt now (.ok { Email := email, Password := password }) s).resp.status = 401 := by
  have he' : email ≠ "" := by
    intro h; rw [h] at he; exact absurd he (by decide)
  have hp' : password ≠ "" := by
    intro h; rw [h] at hp; exact absurd hp (by decide)
  have hbind := ShouldBindJSON_login_ok rt email password hb he' hp'
  have hval := ValidateUserInput_ok email password he hp
  rcases hfail with ⟨e, hf⟩ | ⟨u, e, hf, hc⟩
  · rw [LoginUser_not_found ctrl rt now _ s _ e hbind hval hf]
    exact ⟨rfl, rfl⟩
  · rw [LoginUser_wrong_password ctrl rt now _ s _ u e hbind hval hf hc]
    exact ⟨rfl, rfl⟩

/-- Witness for C4 (amended): `a@b.com` is registered and
the strong password `WrongPass123` is not the one it registered with. -/
theorem LoginUser_invalid_credentials_witness :
    refRuntime.emailTag "a@b.com" = true ∧ IsValidEmail "a@b.com" = true ∧
    IsValidPassword "WrongPass123" = true ∧
    (LoginUser refController refRuntime (t₀ + second)
        (.ok { Email := "a@b.com", Password := "WrongPass123" }) dbRegistered).resp =
      SendUnauthorized "Invalid credentials" :=
  ⟨by decide, by decide, by decide,
    (LoginUser_invalid_credentials refController refRuntime (t₀ + second) dbRegistered
      "a@b.com" "WrongPass123" (by decide) (by decide) (by decide)
      (Or.inr ⟨aliceRow, "crypto/bcrypt: hashedPassword is not the hash of the given password",
        by decide, by decide⟩)).1⟩

/-- C5: every LoginUser call that ends in a 400 or a 401 response has made no
UpdateUser call and hands back the store it received, so every field of
every account, the stored token included, is as before the call. -/
theorem LoginUser_failure_writes_nothing (ctrl : AuthController σ) (rt : Runtime) (now : Nat)
    (body : Body) (s : σ)
    (h : (LoginUser ctrl rt now body s).resp.status = 400 ∨
      (LoginUser ctrl rt now body s).resp.status = 401) :
    (∀ u r, Call.UpdateUser u r ∉ (LoginUser ctrl rt now body s).calls) ∧
    (LoginUser ctrl rt now body s).store = s := by
  cases hb : ShouldBindJSON rt none body with
  | error err => rw [LoginUser_bind_error ctrl rt now body s err hb]; simp
  | ok req =>
    cases hv : ValidateUserInput req.Email req.Password with
    | error err => rw [LoginUser_input_error ctrl rt now body s req err hb hv]; simp
    | ok _ =>
      cases hf : ctrl.UserRepo.FindByEmail s req.Email with
      | error err => rw [LoginUser_not_found ctrl rt now body s req err hb hv hf]; simp
      | ok user =>
        cases hc : ctrl.Hasher.ComparePasswords user.Password req.Password with
        | error err =>
          rw [LoginUser_wrong_password ctrl rt now body s req user err hb hv hf hc]; simp
        | ok _ =>
          cases hg : GenerateToken rt now user.ID user.Email user.Role with
          | error err =>
            rw [LoginUser_token_error ctrl rt now body s req user err hb hv hf hc hg]; simp
          | ok token =>
            cases hu : ctrl.UserRepo.UpdateUser now s { user with Token := token } with
            | error err =>
              rw [LoginUser_update_error ctrl rt now body s req user token err hb hv hf hc hg hu]
                at h
              simp [SendInternalServerError] at h
            | ok s' =>
              rw [LoginUser_success ctrl rt now body s s' req user token hb hv hf hc hg hu] at h
              simp [SendSuccess] at h

/-- Witness for C5: a login of `a@b.com` with
a wrong password ends in 401. -/
theorem LoginUser_failure_writes_nothing_witness :
    (LoginUser refController refRuntime (t₀ + second)
        (.ok { Email := "a@b.com", Password := "WrongPass123" }) dbRegistered).resp.status = 401 ∧
    (∀ u r, Call.UpdateUser u r ∉ (LoginUser refController refRuntime (t₀ + second)
        (.ok { Email := "a@b.com", Password := "WrongPass123" }) dbRegistered).calls) ∧
    (LoginUser refController refRuntime (t₀ + second)
        (.ok { Email := "a@b.com", Password := "WrongPass123" }) dbRegistered).store =
      dbRegistered :=
  ⟨by decide,
    LoginUser_failure_writes_nothing refController refRuntime (t₀ + second)
      (.ok { Email := "a@b.com", Password := "WrongPass123" }) dbRegistered (Or.inr (by decide))⟩

/-! ### Logout and the Authorization header (C8) -/

/-- C8 (failing input): the Authorization header is the bare `firstToken`,
with no `Bearer ` in front.  TrimPrefix leaves it as it is, LogoutUser reads
the account, writes the empty token and answers 200 "Logout successful";
JWTAuthMiddleware answers 401 "Invalid authorization format" to the same
header. -/
theorem LogoutUser_accepts_header_without_bearer :
    TrimPrefix firstToken "Bearer " = firstToken ∧
    firstLogin.store.rows.map (fun u => (u.ID, u.Token)) = [(1, firstToken)] ∧
    (LogoutUser refController refRuntime (t₀ + 2 * second) firstToken firstLogin.store).resp =
      SendSuccess "Logout successful" none ∧
    (LogoutUser refController refRuntime (t₀ + 2 * second) firstToken firstLogin.store).calls =
      [.FindByEmail "a@b.com"
          (.ok { aliceRow with Token := firstToken, UpdatedAt := t₀ + second }),
        .UpdateUser { aliceRow with Token := "", UpdatedAt := t₀ + second } (.ok ())] ∧
    (LogoutUser refController refRuntime (t₀ + 2 * second) firstToken
        firstLogin.store).store.rows.map (fun u => (u.ID, u.Token)) = [(1, "")] ∧
    JWTAuthMiddleware refRuntime (t₀ + 2 * second) firstToken =
      reject "Invalid authorization format" := by
  decide

/-! ### Registration (C9, C10) -/

/-- C9 (failing input): the password `abcdefgh` has eight characters, no
uppercase letter and no digit, so IsValidPassword rejects it; RegisterUser
answers 201 and creates the account, and LoginUser then answers 400 to the
same credentials. -/
theorem RegisterUser_accepts_password_without_uppercase_or_digit :
    IsValidPassword "abcdefgh" = false ∧
    (RegisterUser refController refRuntime t₀ 7
        (.ok { Email := "a@b.com", Password := "abcdefgh" }) DB.empty).resp =
      SendCreated "User registered successfully" (some [("email", .text "a@b.com")]) ∧
    (RegisterUser refController refRuntime t₀ 7
        (.ok { Email := "a@b.com", Password := "abcdefgh" }) DB.empty).store.rows.map
        (fun u => (u.ID, u.Email, u.Password)) = [(1, "a@b.com", "7$abcdefgh")] ∧
    (LoginUser refController refRuntime (t₀ + second)
        (.ok { Email := "a@b.com", Password := "abcdefgh" })
        (RegisterUser refController refRuntime t₀ 7
          (.ok { Email := "a@b.com", Password := "abcdefgh" }) DB.empty).store).resp =
      SendValidationError "Validation error"
        "password must be at least 8 characters, include 1 uppercase letter and 1 number" := by
  decide

theorem RegisterUser_bind_error (ctrl : AuthController σ) (rt : Runtime) (now salt : Nat)
    (body : Body) (s : σ) (err : String) (hb : ShouldBindJSON rt (some 8) body = .error err) :
    RegisterUser ctrl rt now salt body s =
      ⟨SendValidationError "Invalid request data" err, s, []⟩ := by
  unfold RegisterUser; simp [hb]

theorem checkEmailField_of_tag_false (rt : Runtime) (email : String)
    (h : rt.emailTag email = false) : ∃ t, checkEmailField rt email = some t := by
  unfold checkEmailField
  by_cases he : email = ""
  · exact ⟨"required", by simp [he]⟩
  · exact ⟨"email", by simp [he, h]⟩

theorem checkPasswordField_of_short (n : Nat) (password : String)
    (h : runeCount password < n) : ∃ t, checkPasswordField (some n) password = some t := by
  unfold checkPasswordField
  by_cases hp : password = ""
  · exact ⟨"required", by simp [hp]⟩
  · exact ⟨"min", by simp [hp, h]⟩

theorem ShouldBindJSON_error_of_field (rt : Runtime) (minLen : Option Nat) (req : Credentials)
    (h : (∃ t, checkEmailField rt req.Email = some t) ∨
      ∃ t, checkPasswordField minLen req.Password = some t) :
    ∃ err, ShouldBindJSON rt minLen (.ok req) = .error err := by
  cases he : checkEmailField rt req.Email with
  | none =>
    cases hp : checkPasswordField minLen req.Password with
    | none =>
      rcases h with ⟨t, ht⟩ | ⟨t, ht⟩
      · rw [he] at ht; cases ht
      · rw [hp] at ht; cases ht
    | some t₂ => exact ⟨fieldError "Password" t₂, by simp [ShouldBindJSON, he, hp]⟩
  | some t₁ =>
    cases hp : checkPasswordField minLen req.Password with
    | none => exact ⟨fieldError "Email" t₁, by simp [ShouldBindJSON, he, hp]⟩
    | some t₂ =>
      exact ⟨fieldError "Email" t₁ ++ "\n" ++ fieldError "Password" t₂,
        by simp [ShouldBindJSON, he, hp]⟩

/-- C10: a RegisterUser request whose body does not decode, whose email fails
the `email` rule of the binding, or whose password has fewer than 8
characters is answered 400 "Invalid request data"; the handler has then made
no call at all on the hasher or the repository (neither HashPassword nor
CreateUser), and the store is as it was. -/
theorem RegisterUser_rejects_before_storage (ctrl : AuthController σ) (rt : Runtime)
    (now salt : Nat) (body : Body) (s : σ)
    (h : (∃ e, body = .error e) ∨
      ∃ req, body = .ok req ∧ (rt.emailTag req.Email = false ∨ runeCount req.Password < 8)) :
    (∃ err, (RegisterUser ctrl rt now salt body s).resp =
      SendValidationError "Invalid request data" err) ∧
    (RegisterUser ctrl rt now salt body s).resp.status = 400 ∧
    (RegisterUser ctrl rt now salt body s).resp.message = "Invalid request data" ∧
    (RegisterUser ctrl rt now salt body s).calls = [] ∧
    (RegisterUser ctrl rt now salt body s).store = s := by
  have hbind : ∃ err, ShouldBindJSON rt (some 8) body = .error err := by
    rcases h with ⟨e, rfl⟩ | ⟨req, rfl, hreq⟩
    · exact ⟨e, rfl⟩
    · apply ShouldBindJSON_error_of_field
      rcases hreq with he | hp
      · exact Or.inl (checkEmailField_of_tag_false rt req.Email he)
      · exact Or.inr (checkPasswordField_of_short 8 req.Password hp)
  obtain ⟨err, herr⟩ := hbind
  rw [RegisterUser_bind_error ctrl rt now salt body s err herr]
  exact ⟨⟨err, rfl⟩, rfl, rfl, rfl, rfl⟩

/-- Witness for C10: the weak password
`abc`. -/
theorem RegisterUser_rejects_before_storage_witness :
    runeCount "abc" < 8 ∧
    (RegisterUser refController refRuntime t₀ 7
        (.ok { Email := "a@b.com", Password := "abc" }) DB.empty).resp.status = 400 ∧
    (RegisterUser refController refRuntime t₀ 7
        (.ok { Email := "a@b.com", Password := "abc" }) DB.empty).calls = [] :=
  ⟨by decide,
    (RegisterUser_rejects_before_storage refController refRuntime t₀ 7
      (.ok { Email := "a@b.com", Password := "abc" }) DB.empty
      (Or.inr ⟨_, rfl, Or.inr (by decide)⟩)).2.1,
    (RegisterUser_rejects_before_storage refController refRuntime t₀ 7
      (.ok { Email := "a@b.com", Password := "abc" }) DB.empty
      (Or.inr ⟨_, rfl, Or.inr (by decide)⟩)).2.2.2.1⟩

/-! ### Logout and the store (C6, C7) -/

/-- C6 (counterexample): `a@b.com` logs out with `firstToken` and gets 200;
the stored token is then empty, ValidateToken still accepts `firstToken`, and
the second logout with the same header is answered 200 "Logout successful"
again, not 401, after another UpdateUser call. -/
theorem second_logout_succeeds :
    firstLogout.resp = SendSuccess "Logout successful" none ∧
    firstLogout.store.rows.map (fun u => (u.ID, u.Token)) = [(1, "")] ∧
    ValidateToken refRuntime (t₀ + 3 * second) firstToken = .ok firstClaims ∧
    secondLogout.resp = SendSuccess "Logout successful" none ∧
    secondLogout.resp.status ≠ 401 ∧
    secondLogout.calls =
      [.FindByEmail "a@b.com" (.ok { aliceRow with UpdatedAt := t₀ + 2 * second }),
        .UpdateUser { aliceRow with UpdatedAt := t₀ + 2 * second } (.ok ())] := by
  decide

/-- C7 (counterexample): `firstToken` was issued to account 1, which has since
changed its email to `c@b.com`; account 2 now has the email `a@b.com` and a
token of its own.  LogoutUser with `firstToken` answers 200 and clears the
token of account 2; account 1, the subject of the token, keeps its token. -/
theorem logout_clears_other_account :
    firstClaims.UserID = 1 ∧
    ValidateToken refRuntime (t₀ + 5 * second) firstToken = .ok firstClaims ∧
    emailChanged.resp.status = 200 ∧ bobRegistered.resp.status = 201 ∧
    bobLogin.resp.status = 200 ∧
    bobLogin.store.rows.map (fun u => (u.ID, u.Email, u.Token)) =
      [(1, "c@b.com", firstToken),
       (2, "a@b.com", "HS256.2_87404_117-115-101-114_97-64-98-46-99-111-109.726423864")] ∧
    (LogoutUser refController refRuntime (t₀ + 5 * second) ("Bearer " ++ firstToken)
        bobLogin.store).resp = SendSuccess "Logout successful" none ∧
    (LogoutUser refController refRuntime (t₀ + 5 * second) ("Bearer " ++ firstToken)
        bobLogin.store).store.rows.map (fun u => (u.ID, u.Email, u.Token)) =
      [(1, "c@b.com", firstToken), (2, "a@b.com", "")] := by
  decide

theorem LogoutUser_no_header (ctrl : AuthController σ) (rt : Runtime) (now : Nat) (s : σ) :
    LogoutUser ctrl rt now "" s = ⟨SendUnauthorized "No token provided", s, []⟩ := by
  unfold LogoutUser; simp

theorem LogoutUser_invalid_token (ctrl : AuthController σ) (rt : Runtime) (now : Nat)
    (authHeader : String) (s : σ) (err : String) (hh : authHeader ≠ "")
    (hv : ValidateToken rt now (TrimPrefix authHeader "Bearer ") = .error err) :
    LogoutUser ctrl rt now authHeader s = ⟨SendUnauthorized "Invalid token", s, []⟩ := by
  unfold LogoutUser; simp [hh, hv]

theorem LogoutUser_not_found (ctrl : AuthController σ) (rt : Runtime) (now : Nat)
    (authHeader : String) (s : σ) (claims : Claims) (err : String) (hh : authHeader ≠ "")
    (hv : ValidateToken rt now (TrimPrefix authHeader "Bearer ") = .ok claims)
    (hf : ctrl.UserRepo.FindByEmail s claims.Username = .error err) :
    LogoutUser ctrl rt now authHeader s =
      ⟨SendUnauthorized "User not found", s, [.FindByEmail claims.Username (.error err)]⟩ := by
  unfold LogoutUser; simp [hh, hv, hf]

theorem LogoutUser_update_error (ctrl : AuthController σ) (rt : Runtime) (now : Nat)
    (authHeader : String) (s : σ) (claims : Claims) (user : User) (err : String)
    (hh : authHeader ≠ "")
    (hv : ValidateToken rt now (TrimPrefix authHeader "Bearer ") = .ok claims)
    (hf : ctrl.UserRepo.FindByEmail s claims.Username = .ok user)
    (hu : ctrl.UserRepo.UpdateUser now s { user with Token := "" } = .error err) :
    LogoutUser ctrl rt now authHeader s =
      ⟨SendInternalServerError "Failed to logout", s,
        [.FindByEmail claims.Username (.ok user),
         .UpdateUser { user with Token := "" } (.error err)]⟩ := by
  unfold LogoutUser; simp [hh, hv, hf, hu, writeResult]

theorem LogoutUser_success (ctrl : AuthController σ) (rt : Runtime) (now : Nat)
    (authHeader : String) (s s' : σ) (claims : Claims) (user : User)
    (hh : authHeader ≠ "")
    (hv : ValidateToken rt now (TrimPrefix authHeader "Bearer ") = .ok claims)
    (hf : ctrl.UserRepo.FindByEmail s claims.Username = .ok user)
    (hu : ctrl.UserRepo.UpdateUser now s { user with Token := "" } = .ok s') :
    LogoutUser ctrl rt now authHeader s =
      ⟨SendSuccess "Logout successful" none, s',
        [.FindByEmail claims.Username (.ok user),
         .UpdateUser { user with Token := "" } (.ok ())]⟩ := by
  unfold LogoutUser; simp [hh, hv, hf, hu, writeResult]

/-- A logout that answers 200 has validated the token, found the account of
its username and saved that account with an empty token. -/
theorem LogoutUser_status_200 (ctrl : AuthController σ) (rt : Runtime) (now : Nat)
    (authHeader : String) (s : σ)
    (hs : (LogoutUser ctrl rt now authHeader s).resp.status = 200) :
    ∃ claims user s', authHeader ≠ "" ∧
      ValidateToken rt now (TrimPrefix authHeader "Bearer ") = .ok claims ∧
      ctrl.UserRepo.FindByEmail s claims.Username = .ok user ∧
      ctrl.UserRepo.UpdateUser now s { user with Token := "" } = .ok s' ∧
      (LogoutUser ctrl rt now authHeader s).store = s' := by
  by_cases hh : authHeader = ""
  · subst hh
    rw [LogoutUser_no_header] at hs
    simp [SendUnauthorized] at hs
  · cases hv : ValidateToken rt now (TrimPrefix authHeader "Bearer ") with
    | error err =>
      rw [LogoutUser_invalid_token ctrl rt now authHeader s err hh hv] at hs
      simp [SendUnauthorized] at hs
    | ok claims =>
      cases hf : ctrl.UserRepo.FindByEmail s claims.Username with
      | error err =>
        rw [LogoutUser_not_found ctrl rt now authHeader s claims err hh hv hf] at hs
        simp [SendUnauthorized] at hs
      | ok user =>
        cases hu : ctrl.UserRepo.UpdateUser now s { user with Token := "" } with
        | error err =>
          rw [LogoutUser_update_error ctrl rt now authHeader s claims user err hh hv hf hu] at hs
          simp [SendInternalServerError] at hs
        | ok s' =>
          refine ⟨claims, user, s', hh, rfl, hf, hu, ?_⟩
          rw [LogoutUser_success ctrl rt now authHeader s s' claims user hh hv hf hu]

theorem FindByEmail_find (db : DB) (email : String) (u : User)
    (h : UserRepository.FindByEmail db email = .ok u) :
    db.rows.find? (fun r => r.Email == email && r.DeletedAt.isNone) = some u := by
  unfold UserRepository.FindByEmail at h
  split at h
  · rename_i user hfind
    cases h
    exact hfind
  · cases h

theorem FindByEmail_facts (db : DB) (email : String) (u : User)
    (h : UserRepository.FindByEmail db email = .ok u) :
    u ∈ db.rows ∧ u.Email = email ∧ u.DeletedAt = none := by
  have hf := FindByEmail_find db email u h
  have hm := List.mem_of_find?_eq_some hf
  have hp := List.find?_some hf
  simp at hp
  exact ⟨hm, hp.1, hp.2⟩

theorem UpdateUser_of_live (now : Nat) (db : DB) (v u : User) (hm : u ∈ db.rows)
    (hid : u.ID = v.ID) (hlive : u.DeletedAt = none) :
    UserRepository.UpdateUser now db v =
      if duplicateKey db.rows v then .error "Error 1062 (23000): Duplicate entry"
      else .ok { db with
                 rows := db.rows.map
                   (fun r => if r.ID = v.ID then { v with UpdatedAt := now } else r) } := by
  have hany : db.rows.any (fun r => r.ID == v.ID && r.DeletedAt.isNone) = true := by
    rw [List.any_eq_true]
    exact ⟨u, hm, by simp [hid, hlive]⟩
  unfold UserRepository.UpdateUser
  rw [if_pos hany]

theorem find_after_save (rows : List User) (email : String) (u v : User)
    (hf : rows.find? (fun r => r.Email == email && r.DeletedAt.isNone) = some u)
    (hid : v.ID = u.ID) (hemail : v.Email = email) (hlive : v.DeletedAt = none) :
    (rows.map (fun r => if r.ID = v.ID then v else r)).find?
      (fun r => r.Email == email && r.DeletedAt.isNone) = some v := by
  induction rows with
  | nil => simp at hf
  | cons r rs ih =>
    by_cases hr : r.ID = v.ID
    · simp [List.find?, hr, hemail, hlive]
    · have hne : r ≠ u := fun e => hr (by rw [e, hid])
      simp only [List.map_cons, if_neg hr, List.find?_cons] at hf ⊢
      cases hp : (r.Email == email && r.DeletedAt.isNone) with
      | true =>
        rw [hp] at hf
        exact absurd (Option.some.inj hf) hne
      | false =>
        rw [hp] at hf
        exact ih hf

theorem duplicateKey_after_save (rows : List User) (v w : User) (hid : w.ID = v.ID) :
    duplicateKey (rows.map (fun r => if r.ID = v.ID then w else r)) v = duplicateKey rows v := by
  unfold duplicateKey
  rw [List.any_map]
  congr 1
  funext r
  by_cases hr : r.ID = v.ID
  · simp [hr, hid]
  · simp [hr]

/-- What a successful save of `v` over the live row `u` of the table leaves:
no unique index was in the way, and the rows with the id of `v` are now `v`
with a new time stamp. -/
theorem UpdateUser_ok_of_live (now : Nat) (db db' : DB) (v u : User) (hm : u ∈ db.rows)
    (hid : u.ID = v.ID) (hlive : u.DeletedAt = none)
    (h : UserRepository.UpdateUser now db v = .ok db') :
    duplicateKey db.rows v = false ∧
    db' = { db with
            rows := db.rows.map
              (fun r => if r.ID = v.ID then { v with UpdatedAt := now } else r) } := by
  rw [UpdateUser_of_live now db v u hm hid hlive] at h
  cases hd : duplicateKey db.rows v with
  | true => rw [hd] at h; simp at h
  | false =>
    rw [hd] at h
    simp at h
    exact ⟨rfl, h.symm⟩

/-- C7 (amended): when LogoutUser, over the repository's table, answers 200 to
a token with claims `claims`, the account it has cleared is the account `u`
that FindByEmail returns for the username claim, whose stored email is that
username; the rows with another id than `u` are as before, and the row of `u`
differs only in its token, now empty, and its update time. -/
theorem LogoutUser_clears_account_of_username (hasher : PasswordHasher) (rt : Runtime)
    (now : Nat) (authHeader : String) (db : DB) (claims : Claims)
    (hv : ValidateToken rt now (TrimPrefix authHeader "Bearer ") = .ok claims)
    (hs : (LogoutUser { UserRepo := UserRepository, Hasher := hasher } rt now authHeader
      db).resp.status = 200) :
    ∃ u, UserRepository.FindByEmail db claims.Username = .ok u ∧ u.Email = claims.Username ∧
      (LogoutUser { UserRepo := UserRepository, Hasher := hasher } rt now authHeader db).store =
        { db with
          rows := db.rows.map
            (fun r => if r.ID = u.ID then { u with Token := "", UpdatedAt := now } else r) } := by
  obtain ⟨claims', user, s', -, hv', hf, hu, hst⟩ :=
    LogoutUser_status_200 { UserRepo := UserRepository, Hasher := hasher } rt now authHeader db hs
  rw [hv] at hv'
  cases hv'
  have hf' : UserRepository.FindByEmail db claims.Username = .ok user := hf
  have hu' : UserRepository.UpdateUser now db { user with Token := "" } = .ok s' := hu
  obtain ⟨hm, hemail, hlive⟩ := FindByEmail_facts db claims.Username user hf'
  obtain ⟨-, hdb⟩ := UpdateUser_ok_of_live now db s' { user with Token := "" } user hm rfl hlive hu'
  exact ⟨user, hf', hemail, by rw [hst, hdb]⟩

/-- Witness for C7 (amended): the logout that
presents `firstToken` after the email `a@b.com` has passed to account 2. -/
theorem LogoutUser_clears_account_of_username_witness :
    ValidateToken refRuntime (t₀ + 5 * second) (TrimPrefix ("Bearer " ++ firstToken) "Bearer ") =
      .ok firstClaims ∧
    (LogoutUser refController refRuntime (t₀ + 5 * second) ("Bearer " ++ firstToken)
      bobLogin.store).resp.status = 200 ∧
    ∃ u, UserRepository.FindByEmail bobLogin.store firstClaims.Username = .ok u ∧
      u.Email = firstClaims.Username ∧
      (LogoutUser refController refRuntime (t₀ + 5 * second) ("Bearer " ++ firstToken)
          bobLogin.store).store =
        { bobLogin.store with
          rows := bobLogin.store.rows.map
            (fun r => if r.ID = u.ID then { u with Token := "", UpdatedAt := t₀ + 5 * second }
              else r) } :=
  ⟨by decide, by decide,
    LogoutUser_clears_account_of_username testHasher refRuntime (t₀ + 5 * second)
      ("Bearer " ++ firstToken) bobLogin.store firstClaims (by decide) (by decide)⟩

/-- C6 (amended): over the repository's table, after a LogoutUser call that
answered 200, a second LogoutUser call with the same header, made while
ValidateToken still gives the token the same verdict, is not rejected: it
answers 200 "Logout successful" again, and it saves the row once more, so
that the table after it agrees with the table before it in every field but
the update time.  The token it presents is not compared with the stored
one. -/
theorem second_LogoutUser_answers_200 (hasher : PasswordHasher) (rt : Runtime)
    (now₁ now₂ : Nat) (authHeader : String) (db : DB)
    (h₁ : (LogoutUser { UserRepo := UserRepository, Hasher := hasher } rt now₁ authHeader
      db).resp.status = 200)
    (hv : ValidateToken rt now₂ (TrimPrefix authHeader "Bearer ") =
      ValidateToken rt now₁ (TrimPrefix authHeader "Bearer ")) :
    (LogoutUser { UserRepo := UserRepository, Hasher := hasher } rt now₂ authHeader
      (LogoutUser { UserRepo := UserRepository, Hasher := hasher } rt now₁ authHeader
        db).store).resp = SendSuccess "Logout successful" none ∧
    (LogoutUser { UserRepo := UserRepository, Hasher := hasher } rt now₂ authHeader
      (LogoutUser { UserRepo := UserRepository, Hasher := hasher } rt now₁ authHeader
        db).store).store.rows.map (fun r => { r with UpdatedAt := 0 }) =
      (LogoutUser { UserRepo := UserRepository, Hasher := hasher } rt now₁ authHeader
        db).store.rows.map (fun r => { r with UpdatedAt := 0 }) := by
  obtain ⟨claims, user, s', hh, hv₁, hf, hu, hst⟩ :=
    LogoutUser_status_200 { UserRepo := UserRepository, Hasher := hasher } rt now₁ authHeader db h₁
  have hf' : UserRepository.FindByEmail db claims.Username = .ok user := hf
  have hu' : UserRepository.UpdateUser now₁ db { user with Token := "" } = .ok s' := hu
  obtain ⟨hm, hemail, hlive⟩ := FindByEmail_facts db claims.Username user hf'
  obtain ⟨hdup, hdb⟩ :=
    UpdateUser_ok_of_live now₁ db s' { user with Token := "" } user hm rfl hlive hu'
  have hfind := FindByEmail_find db claims.Username user hf'
  -- the row found by the second call
  have hf₂ : UserRepository.FindByEmail s' claims.Username =
      .ok { user with Token := "", UpdatedAt := now₁ } := by
    have := find_after_save db.rows claims.Username user
      { user with Token := "", UpdatedAt := now₁ } hfind rfl hemail hlive
    unfold UserRepository.FindByEmail
    rw [hdb]
    simp only
    rw [this]
  have hm₂ : ({ user with Token := "", UpdatedAt := now₁ } : User) ∈ s'.rows := by
    rw [hdb]
    exact List.mem_map.mpr ⟨user, hm, by simp⟩
  have hdup₂ : duplicateKey s'.rows { user with Token := "", UpdatedAt := now₁ } = false := by
    rw [hdb]
    have := duplicateKey_after_save db.rows { user with Token := "", UpdatedAt := now₁ }
      { user with Token := "", UpdatedAt := now₁ } rfl
    exact this.trans hdup
  have hu₂ : UserRepository.UpdateUser now₂ s' { user with Token := "", UpdatedAt := now₁ } =
      .ok { s' with
            rows := s'.rows.map
              (fun r => if r.ID = user.ID then { user with Token := "", UpdatedAt := now₂ }
                else r) } := by
    rw [UpdateUser_of_live now₂ s' _ _ hm₂ rfl hlive, hdup₂]
    rfl
  rw [hst]
  rw [LogoutUser_success { UserRepo := UserRepository, Hasher := hasher } rt now₂ authHeader s' _
    claims { user with Token := "", UpdatedAt := now₁ } hh (hv.trans hv₁) hf₂ hu₂]
  refine ⟨rfl, ?_⟩
  simp only [hdb, List.map_map]
  apply List.map_congr_left
  intro r _
  by_cases hr : r.ID = user.ID
  · simp [hr]
  · simp [hr]

/-- Witness for C6 (amended): the two logouts of `a@b.com`
with `firstToken`. -/
theorem second_LogoutUser_answers_200_witness :
    firstLogout.resp.status = 200 ∧
    ValidateToken refRuntime (t₀ + 3 * second) (TrimPrefix ("Bearer " ++ firstToken) "Bearer ") =
      ValidateToken refRuntime (t₀ + 2 * second)
        (TrimPrefix ("Bearer " ++ firstToken) "Bearer ") ∧
    secondLogout.resp = SendSuccess "Logout successful" none ∧
    secondLogout.store.rows.map (fun r => { r with UpdatedAt := 0 }) =
      firstLogout.store.rows.map (fun r => { r with UpdatedAt := 0 }) :=
  ⟨by decide, by decide,
    second_LogoutUser_answers_200 testHasher refRuntime (t₀ + 2 * second) (t₀ + 3 * second)
      ("Bearer " ++ firstToken) firstLogin.store (by decide) (by decide)⟩

/-! ### Registration (C11 to C13) -/

theorem RegisterUser_hash_error (ctrl : AuthController σ) (rt : Runtime) (now salt : Nat)
    (body : Body) (s : σ) (req : Credentials) (err : String)
    (hb : ShouldBindJSON rt (some 8) body = .ok req)
    (hh : ctrl.Hasher.HashPassword salt req.Password = .error err) :
    RegisterUser ctrl rt now salt body s =
      ⟨SendInternalServerError "Failed to hash password", s,
        [.HashPassword req.Password (.error err)]⟩ := by
  unfold RegisterUser; simp [hb, hh]

theorem RegisterUser_create_error (ctrl : AuthController σ) (rt : Runtime) (now salt : Nat)
    (body : Body) (s : σ) (req : Credentials) (hashed err : String)
    (hb : ShouldBindJSON rt (some 8) body = .ok req)
    (hh : ctrl.Hasher.HashPassword salt req.Password = .ok hashed)
    (hc : ctrl.UserRepo.CreateUser now s
      { User.zero with Email := req.Email, Password := hashed } = .error err) :
    RegisterUser ctrl rt now salt body s =
      ⟨SendInternalServerError "Failed to create user", s,
        [.HashPassword req.Password (.ok hashed),
         .CreateUser { User.zero with Email := req.Email, Password := hashed } (.error err)]⟩ := by
  unfold RegisterUser; simp [hb, hh, hc, writeResult]

theorem RegisterUser_success (ctrl : AuthController σ) (rt : Runtime) (now salt : Nat)
    (body : Body) (s s' : σ) (req : Credentials) (hashed : String)
    (hb : ShouldBindJSON rt (some 8) body = .ok req)
    (hh : ctrl.Hasher.HashPassword salt req.Password = .ok hashed)
    (hc : ctrl.UserRepo.CreateUser now s
      { User.zero with Email := req.Email, Password := hashed } = .ok s') :
    RegisterUser ctrl rt now salt body s =
      ⟨SendCreated "User registered successfully" (some [("email", .text req.Email)]), s',
        [.HashPassword req.Password (.ok hashed),
         .CreateUser { User.zero with Email := req.Email, Password := hashed } (.ok ())]⟩ := by
  unfold RegisterUser; simp [hb, hh, hc, writeResult]

/-- C11 (counterexample): `a@b.com` is registered and logged in; a second
registration with that email is answered 500 "Failed to create user", the
answer of any storage failure, not 409, and the table is as before. -/
theorem duplicate_registration_is_500 :
    UserRepository.FindByEmail firstLogin.store "a@b.com" =
      .ok { aliceRow with Token := firstToken, UpdatedAt := t₀ + second } ∧
    duplicateRegistration.resp = SendInternalServerError "Failed to create user" ∧
    duplicateRegistration.resp.status = 500 ∧
    duplicateRegistration.resp.status ≠ 409 ∧
    duplicateRegistration.store = firstLogin.store := by
  decide

theorem CreateUser_duplicate_email (now : Nat) (db : DB) (user : User)
    (hdup : ∃ r ∈ db.rows, r.Email = user.Email) :
    UserRepository.CreateUser now db user = .error "Error 1062 (23000): Duplicate entry" := by
  obtain ⟨r, hr, he⟩ := hdup
  unfold UserRepository.CreateUser
  simp only
  rw [if_pos]
  by_cases hid : r.ID = (if user.ID = 0 then db.nextID else user.ID)
  · apply Bool.or_eq_true_iff.mpr
    left
    rw [List.any_eq_true]
    exact ⟨r, hr, by simp [hid]⟩
  · apply Bool.or_eq_true_iff.mpr
    right
    unfold duplicateKey
    rw [List.any_eq_true]
    exact ⟨r, hr, by simp [hid, he]⟩

/-- C11 (amended): over the repository's table, a RegisterUser request that
passes the binding and whose password is hashed, but whose email already
belongs to a row of the table, fails with HTTP 500 "Failed to create user",
the answer given to every failure of CreateUser, and the table is left as it
was. -/
theorem RegisterUser_duplicate_email (hasher : PasswordHasher) (rt : Runtime) (now salt : Nat)
    (body : Body) (db : DB) (req : Credentials) (hashed : String)
    (hb : ShouldBindJSON rt (some 8) body = .ok req)
    (hh : hasher.HashPassword salt req.Password = .ok hashed)
    (hdup : ∃ r ∈ db.rows, r.Email = req.Email) :
    (RegisterUser { UserRepo := UserRepository, Hasher := hasher } rt now salt body db).resp =
      SendInternalServerError "Failed to create user" ∧
    (RegisterUser { UserRepo := UserRepository, Hasher := hasher } rt now salt body db).resp.status
      = 500 ∧
    (RegisterUser { UserRepo := UserRepository, Hasher := hasher } rt now salt body db).store
      = db := by
  have hc := CreateUser_duplicate_email now db
    { User.zero with Email := req.Email, Password := hashed } hdup
  rw [RegisterUser_create_error { UserRepo := UserRepository, Hasher := hasher } rt now salt body
    db req hashed _ hb hh hc]
  exact ⟨rfl, rfl, rfl⟩

/-- Witness for C11 (amended): the second registration with `a@b.com`. -/
theorem RegisterUser_duplicate_email_witness :
    ShouldBindJSON refRuntime (some 8) (.ok { Email := "a@b.com", Password := "OtherPass9" }) =
      .ok { Email := "a@b.com", Password := "OtherPass9" } ∧
    testHasher.HashPassword 11 "OtherPass9" = .ok "11$OtherPass9" ∧
    (∃ r ∈ firstLogin.store.rows, r.Email = "a@b.com") ∧
    duplicateRegistration.resp = SendInternalServerError "Failed to create user" ∧
    duplicateRegistration.store = firstLogin.store :=
  ⟨by decide, by decide, by decide,
    (RegisterUser_duplicate_email testHasher refRuntime (t₀ + 2 * second) 11
      (.ok { Email := "a@b.com", Password := "OtherPass9" }) firstLogin.store
      { Email := "a@b.com", Password := "OtherPass9" } "11$OtherPass9"
      (by decide) (by decide) (by decide)).1,
    (RegisterUser_duplicate_email testHasher refRuntime (t₀ + 2 * second) 11
      (.ok { Email := "a@b.com", Password := "OtherPass9" }) firstLogin.store
      { Email := "a@b.com", Password := "OtherPass9" } "11$OtherPass9"
      (by decide) (by decide) (by decide)).2.2⟩

/-- C12: when a RegisterUser call has hashed the password `plain` to `hashed`
and its CreateUser call on `u` has succeeded, the request decoded to some
`req` with that password, `hashed` is what Hasher.HashPassword returned for
it, `u` is the zero user with Email the request email and Password `hashed`
(so its Token is empty and the plain password is not in it), and the answer
is 201 "User registered successfully" whose data has the single member
`email`. -/
theorem RegisterUser_creates_account (ctrl : AuthController σ) (rt : Runtime) (now salt : Nat)
    (body : Body) (s : σ) (plain hashed : String) (u : User)
    (hhash : Call.HashPassword plain (.ok hashed) ∈ (RegisterUser ctrl rt now salt body s).calls)
    (hcreate : Call.CreateUser u (.ok ()) ∈ (RegisterUser ctrl rt now salt body s).calls) :
    ∃ req, body = .ok req ∧ plain = req.Password ∧
      ctrl.Hasher.HashPassword salt req.Password = .ok hashed ∧
      u = { User.zero with Email := req.Email, Password := hashed } ∧
      u.Email = req.Email ∧ u.Password = hashed ∧ u.Token = "" ∧
      (RegisterUser ctrl rt now salt body s).resp =
        SendCreated "User registered successfully" (some [("email", .text req.Email)]) := by
  cases hb : ShouldBindJSON rt (some 8) body with
  | error err => rw [RegisterUser_bind_error ctrl rt now salt body s err hb] at hhash; simp at hhash
  | ok req =>
    have hbody := ShouldBindJSON_ok rt (some 8) body req hb
    cases hh : ctrl.Hasher.HashPassword salt req.Password with
    | error err =>
      rw [RegisterUser_hash_error ctrl rt now salt body s req err hb hh] at hhash
      simp at hhash
    | ok h =>
      cases hc : ctrl.UserRepo.CreateUser now s
          { User.zero with Email := req.Email, Password := h } with
      | error err =>
        rw [RegisterUser_create_error ctrl rt now salt body s req h err hb hh hc] at hcreate
        simp at hcreate
      | ok s' =>
        rw [RegisterUser_success ctrl rt now salt body s s' req h hb hh hc] at hhash hcreate ⊢
        simp at hhash hcreate
        obtain ⟨rfl, rfl⟩ := hhash
        subst hcreate
        exact ⟨req, hbody, rfl, hh, rfl, rfl, rfl, rfl, rfl⟩

/-- Witness for C12: the registration of `a@b.com`. -/
theorem RegisterUser_creates_account_witness :
    Call.HashPassword "StrongPass1" (.ok "7$StrongPass1") ∈
      (RegisterUser refController refRuntime t₀ 7 aliceBody DB.empty).calls ∧
    Call.CreateUser { User.zero with Email := "a@b.com", Password := "7$StrongPass1" } (.ok ()) ∈
      (RegisterUser refController refRuntime t₀ 7 aliceBody DB.empty).calls ∧
    ∃ req, aliceBody = .ok req ∧ "StrongPass1" = req.Password ∧
      refController.Hasher.HashPassword 7 req.Password = .ok "7$StrongPass1" ∧
      ({ User.zero with Email := "a@b.com", Password := "7$StrongPass1" } : User) =
        { User.zero with Email := req.Email, Password := "7$StrongPass1" } ∧
      ({ User.zero with Email := "a@b.com", Password := "7$StrongPass1" } : User).Email =
        req.Email ∧
      ({ User.zero with Email := "a@b.com", Password := "7$StrongPass1" } : User).Password =
        "7$StrongPass1" ∧
      ({ User.zero with Email := "a@b.com", Password := "7$StrongPass1" } : User).Token = "" ∧
      (RegisterUser refController refRuntime t₀ 7 aliceBody DB.empty).resp =
        SendCreated "User registered successfully" (some [("email", .text req.Email)]) :=
  ⟨by decide, by decide,
    RegisterUser_creates_account refController refRuntime t₀ 7 aliceBody DB.empty
      "StrongPass1" "7$StrongPass1"
      { User.zero with Email := "a@b.com", Password := "7$StrongPass1" } (by decide) (by decide)⟩

/-- C13 (failing input): RegisterUser answers 201 to `a@b.com` with the
password `abcdefgh` and stores its hash; the hasher verifies that hash
against the same password and a token can be signed for the account; still
LoginUser with the same email and password answers 400 "Validation error"
and returns no token, without a lookup. -/
theorem login_after_registration_rejected :
    weakRegistration.resp =
      SendCreated "User registered successfully" (some [("email", .text "a@b.com")]) ∧
    UserRepository.FindByEmail weakRegistration.store "a@b.com" =
      .ok { aliceRow with Password := "7$abcdefgh" } ∧
    testHasher.ComparePasswords "7$abcdefgh" "abcdefgh" = .ok () ∧
    (GenerateToken refRuntime (t₀ + second) 1 "a@b.com" "user").isOk = true ∧
    (LoginUser refController refRuntime (t₀ + second)
        (.ok { Email := "a@b.com", Password := "abcdefgh" }) weakRegistration.store).resp =
      SendValidationError "Validation error"
        "password must be at least 8 characters, include 1 uppercase letter and 1 number" ∧
    (LoginUser refController refRuntime (t₀ + second)
        (.ok { Email := "a@b.com", Password := "abcdefgh" }) weakRegistration.store).resp.data =
      none ∧
    (LoginUser refController refRuntime (t₀ + second)
        (.ok { Email := "a@b.com", Password := "abcdefgh" }) weakRegistration.store).calls =
      [] := by
  decide

/-! ### Token service (C15 to C17) -/

/-- C15 (counterexample): the reference library rejects a token with a changed
signature, an expired token and a string that is no token with three
different errors; ValidateToken fails with the same error "invalid token" in
the three cases. -/
theorem ValidateToken_one_error_for_three_causes :
    refJWT.ParseWithClaims "s3cret" (t₀ + 6 * second) tamperedToken =
      .error "token signature is invalid" ∧
    refJWT.ParseWithClaims "s3cret" (87401 * second) firstToken =
      .error "token has invalid claims: token is expired" ∧
    refJWT.ParseWithClaims "s3cret" (t₀ + 6 * second) "not-a-token" =
      .error "token is malformed" ∧
    ValidateToken refRuntime (t₀ + 6 * second) tamperedToken = .error "invalid token" ∧
    ValidateToken refRuntime (87401 * second) firstToken = .error "invalid token" ∧
    ValidateToken refRuntime (t₀ + 6 * second) "not-a-token" = .error "invalid token" := by
  decide

/-- C15 (amended): ValidateToken does not report why a token is rejected:
whenever the library rejects the token, whatever its error (signature,
expiry or shape), ValidateToken fails with the one error "invalid token". -/
theorem ValidateToken_hides_cause (rt : Runtime) (now : Nat) (tokenString err : String)
    (h : rt.jwt.ParseWithClaims rt.jwtSecret now tokenString = .error err) :
    ValidateToken rt now tokenString = .error "invalid token" := by
  unfold ValidateToken
  rw [h]

/-- Witness for C15 (amended): the expired `firstToken`. -/
theorem ValidateToken_hides_cause_witness :
    refRuntime.jwt.ParseWithClaims refRuntime.jwtSecret (87401 * second) firstToken =
      .error "token has invalid claims: token is expired" ∧
    ValidateToken refRuntime (87401 * second) firstToken = .error "invalid token" :=
  ⟨by decide,
    ValidateToken_hides_cause refRuntime (87401 * second) firstToken
      "token has invalid claims: token is expired" (by decide)⟩

/-- C16 (counterexample): the token issued half a second after `t₀` carries
the expiry 87400 s, which is half a second less than the issue time plus 24
hours. -/
theorem expiry_is_truncated :
    GenerateToken refRuntime (t₀ + 500000000) 1 "a@b.com" "user" = .ok halfSecondToken ∧
    ValidateToken refRuntime (t₀ + second) halfSecondToken =
      .ok { UserID := 1, Username := "a@b.com", Role := "user", ExpiresAt := some 87400 } ∧
    87400 * second ≠ t₀ + 500000000 + 24 * hour ∧
    87400 * second + 500000000 = t₀ + 500000000 + 24 * hour := by
  decide

/-- C16 (amended): every token produced by GenerateToken at time `now` is the
library's signature of the claims with the given user id, username and role
and the expiry `e`, in whole seconds, that is `now` plus 24 hours truncated
to the second: `e` seconds is at most `now + 24 h` and less than a second
below it, and equal to it when `now` is on a whole second. -/
theorem GenerateToken_expiry (rt : Runtime) (now userID : Nat) (username role T : String)
    (h : GenerateToken rt now userID username role = .ok T) :
    ∃ e, rt.jwt.SignedString rt.jwtSecret
        { UserID := userID, Username := username, Role := role, ExpiresAt := some e } = .ok T ∧
      e = (now + 24 * hour) / second ∧
      e * second ≤ now + 24 * hour ∧ now + 24 * hour < e * second + second ∧
      (now % second = 0 → e * second = now + 24 * hour) := by
  refine ⟨(now + 24 * hour) / second, ?_, rfl, ?_, ?_, ?_⟩
  · unfold GenerateToken at h
    simp only [NewNumericDate] at h
    split at h
    · cases h
    · rename_i signedToken hs
      cases h
      exact hs
  · exact Nat.div_mul_le_self _ _
  · have hpos : 0 < second := by decide
    have := Nat.lt_div_mul_add (a := now + 24 * hour) hpos
    exact this
  · intro hmod
    have hd : second ∣ now + 24 * hour := by
      have h1 : second ∣ now := Nat.dvd_of_mod_eq_zero hmod
      have h2 : second ∣ 24 * hour := ⟨24 * 3600, by unfold hour; ring⟩
      exact Nat.dvd_add h1 h2
    exact Nat.div_mul_cancel hd

/-- Witness for C16 (amended): the token issued half a second after `t₀`. -/
theorem GenerateToken_expiry_witness :
    GenerateToken refRuntime (t₀ + 500000000) 1 "a@b.com" "user" = .ok halfSecondToken ∧
    ∃ e, refRuntime.jwt.SignedString refRuntime.jwtSecret
        { UserID := 1, Username := "a@b.com", Role := "user", ExpiresAt := some e } =
          .ok halfSecondToken ∧
      e = (t₀ + 500000000 + 24 * hour) / second ∧
      e * second ≤ t₀ + 500000000 + 24 * hour ∧
      t₀ + 500000000 + 24 * hour < e * second + second ∧
      ((t₀ + 500000000) % second = 0 → e * second = t₀ + 500000000 + 24 * hour) :=
  ⟨by decide,
    GenerateToken_expiry refRuntime (t₀ + 500000000) 1 "a@b.com" "user" halfSecondToken
      (by decide)⟩

/-- C17 (counterexample): with the secret empty, GenerateToken returns a token
for `a@b.com`, ValidateToken accepts it, the gate lets it through and
LoginUser answers 200. -/
theorem empty_secret_signs_and_accepts :
    emptySecretRuntime.jwtSecret = "" ∧
    GenerateToken emptySecretRuntime (t₀ + second) 1 "a@b.com" "user" = .ok emptySecretToken ∧
    ValidateToken emptySecretRuntime (t₀ + 2 * second) emptySecretToken = .ok firstClaims ∧
    (JWTAuthMiddleware emptySecretRuntime (t₀ + 2 * second) ("Bearer " ++ emptySecretToken)).next
      = true ∧
    (LoginUser refController emptySecretRuntime (t₀ + second) aliceBody dbRegistered).resp =
      SendSuccess "Login successful" (some [("token", .text emptySecretToken)]) := by
  decide

/-- C17 (amended): the code makes no check of the secret: when it is empty,
GenerateToken returns a token exactly when the library signs the claims with
the empty key, and ValidateToken accepts a token exactly when the library
parses it as valid under the empty key. -/
theorem empty_secret_is_passed_on (rt : Runtime) (now userID : Nat)
    (username role T : String) (claims : Claims) (hs : rt.jwtSecret = "") :
    (GenerateToken rt now userID username role = .ok T ↔
      rt.jwt.SignedString ""
        { UserID := userID, Username := username, Role := role,
          ExpiresAt := some (NewNumericDate (now + 24 * hour)) } = .ok T) ∧
    (ValidateToken rt now T = .ok claims ↔
      rt.jwt.ParseWithClaims "" now T = .ok { Claims := claims, Valid := true }) := by
  constructor
  · unfold GenerateToken
    rw [hs]
    simp only
    cases hsign : rt.jwt.SignedString ""
        { UserID := userID, Username := username, Role := role,
          ExpiresAt := some (NewNumericDate (now + 24 * hour)) } with
    | error e => simp
    | ok t => simp
  · unfold ValidateToken
    rw [hs]
    cases hp : rt.jwt.ParseWithClaims "" now T with
    | error e => simp
    | ok tok =>
      cases tok with
      | mk c v =>
        cases v <;> simp

/-- Witness for C17 (amended): the reference runtime with the empty secret. -/
theorem empty_secret_is_passed_on_witness :
    emptySecretRuntime.jwtSecret = "" ∧
    (GenerateToken emptySecretRuntime (t₀ + second) 1 "a@b.com" "user" = .ok emptySecretToken ↔
      emptySecretRuntime.jwt.SignedString ""
        { UserID := 1, Username := "a@b.com", Role := "user",
          ExpiresAt := some (NewNumericDate (t₀ + second + 24 * hour)) } =
        .ok emptySecretToken) ∧
    (ValidateToken emptySecretRuntime (t₀ + second) emptySecretToken = .ok firstClaims ↔
      emptySecretRuntime.jwt.ParseWithClaims "" (t₀ + second) emptySecretToken =
        .ok { Claims := firstClaims, Valid := true }) :=
  ⟨by decide,
    empty_secret_is_passed_on emptySecretRuntime (t₀ + second) 1 "a@b.com" "user"
      emptySecretToken firstClaims (by decide)⟩

/-! ### Password policy (C18) -/

/-- C18 (failing input): the password `Aé1éé` has 5 characters and 8 bytes;
IsValidPassword accepts it, while the rule `min=8` of the registration
binding, which counts characters, rejects it. -/
theorem IsValidPassword_counts_bytes :
    runeCount "Aé1éé" = 5 ∧ byteLen "Aé1éé" = 8 ∧
    IsValidPassword "Aé1éé" = true ∧
    checkPasswordField (some 8) "Aé1éé" = some "min" := by
  decide

theorem scanPassword_eq (cs : List Char) (hasUpper hasDigit : Bool) :
    scanPassword cs (hasUpper, hasDigit) =
      (hasUpper || cs.any (fun c => decide ('A' ≤ c ∧ c ≤ 'Z')),
       hasDigit || cs.any (fun c => decide ('0' ≤ c ∧ c ≤ '9'))) := by
  induction cs generalizing hasUpper hasDigit with
  | nil => simp [scanPassword]
  | cons c cs ih =>
    unfold scanPassword
    by_cases hu : 'A' ≤ c ∧ c ≤ 'Z'
    · have hd : ¬ ('0' ≤ c ∧ c ≤ '9') := by
        intro hd
        have h3 : ('A' : Char) ≤ '9' := Char.le_trans hu.1 hd.2
        exact absurd h3 (by decide)
      rw [if_pos hu, ih, List.any_cons, List.any_cons, decide_eq_true hu, decide_eq_false hd]
      simp
    · rw [if_neg hu]
      by_cases hd : '0' ≤ c ∧ c ≤ '9'
      · rw [if_pos hd, ih, List.any_cons, List.any_cons, decide_eq_false hu, decide_eq_true hd]
        simp
      · rw [if_neg hd, ih, List.any_cons, List.any_cons, decide_eq_false hu, decide_eq_false hd]
        simp

/-- What IsValidPassword decides: at least 8 bytes, a character in `A`..`Z`
and a character in `0`..`9`. -/
theorem IsValidPassword_iff (password : String) :
    IsValidPassword password = true ↔
      8 ≤ byteLen password ∧ (∃ c ∈ password.data, 'A' ≤ c ∧ c ≤ 'Z') ∧
        ∃ c ∈ password.data, '0' ≤ c ∧ c ≤ '9' := by
  unfold IsValidPassword
  by_cases hlen : byteLen password < 8
  · simp [hlen]
  · rw [if_neg hlen, scanPassword_eq]
    simp [List.any_eq_true]
    intro _ _ _ _ _ _ _ _
    omega

/-! ### The gate and the Authorization header (C20) -/

theorem splitChars_ne_nil (sep : Char) (cs : List Char) : splitChars sep cs ≠ [] := by
  cases cs with
  | nil => simp [splitChars]
  | cons c cs =>
    unfold splitChars
    by_cases hc : c = sep
    · simp [hc]
    · rw [if_neg hc]
      split <;> simp

theorem splitChars_single (sep : Char) (cs b : List Char) (h : splitChars sep cs = [b]) :
    cs = b ∧ sep ∉ b := by
  induction cs generalizing b with
  | nil =>
    simp [splitChars] at h
    subst h
    simp
  | cons c cs ih =>
    unfold splitChars at h
    by_cases hc : c = sep
    · rw [if_pos hc] at h
      simp at h
      exact absurd h.2 (splitChars_ne_nil sep cs)
    · rw [if_neg hc] at h
      cases hs : splitChars sep cs with
      | nil => exact absurd hs (splitChars_ne_nil sep cs)
      | cons p ps =>
        rw [hs] at h
        simp at h
        obtain ⟨hb, hps⟩ := h
        subst hb hps
        obtain ⟨h1, h2⟩ := ih p hs
        subst h1
        refine ⟨rfl, ?_⟩
        intro hm
        rcases List.mem_cons.mp hm with e | m
        · exact hc e.symm
        · exact h2 m

theorem splitChars_pair (sep : Char) (cs a b : List Char) (h : splitChars sep cs = [a, b]) :
    cs = a ++ sep :: b ∧ sep ∉ b := by
  induction cs generalizing a with
  | nil => simp [splitChars] at h
  | cons c cs ih =>
    unfold splitChars at h
    by_cases hc : c = sep
    · rw [if_pos hc] at h
      simp at h
      obtain ⟨ha, hrest⟩ := h
      subst ha
      obtain ⟨h1, h2⟩ := splitChars_single sep cs b hrest
      subst h1
      exact ⟨by simp [hc], h2⟩
    · rw [if_neg hc] at h
      cases hs : splitChars sep cs with
      | nil => exact absurd hs (splitChars_ne_nil sep cs)
      | cons p ps =>
        rw [hs] at h
        simp at h
        obtain ⟨ha, hps⟩ := h
        subst ha hps
        obtain ⟨h1, h2⟩ := ih p hs
        exact ⟨by simp [h1], h2⟩

/-- The middleware on a header of the form `Bearer <t>` whose token has no
space and passes ValidateToken. -/
theorem JWTAuthMiddleware_pass (rt : Runtime) (now : Nat) (t : String) (claims : Claims)
    (hsp : ' ' ∉ t.data) (hv : ValidateToken rt now t = .ok claims) :
    JWTAuthMiddleware rt now ("Bearer " ++ t) =
      { resp := none, aborted := false, next := true,
        ctx := { userID := some claims.UserID, username := some claims.Username,
                 role := some claims.Role } } := by
  unfold JWTAuthMiddleware
  rw [if_neg (bearer_append_ne_empty t), Split_bearer t hsp]
  simp [hv]

/-- The middleware on any other header: it rejects. -/
theorem JWTAuthMiddleware_reject (rt : Runtime) (now : Nat) (authHeader : String)
    (h : ¬ ∃ t claims, authHeader = "Bearer " ++ t ∧ ' ' ∉ t.data ∧
      ValidateToken rt now t = .ok claims) :
    ∃ msg, JWTAuthMiddleware rt now authHeader = reject msg := by
  unfold JWTAuthMiddleware
  by_cases he : authHeader = ""
  · exact ⟨_, by rw [if_pos he]⟩
  · rw [if_neg he]
    unfold Split
    cases hs : splitChars ' ' authHeader.data with
    | nil => exact ⟨_, rfl⟩
    | cons a rest =>
      cases rest with
      | nil => exact ⟨_, rfl⟩
      | cons b rest =>
        cases rest with
        | cons c rest => exact ⟨_, rfl⟩
        | nil =>
          simp only [List.map_cons, List.map_nil]
          by_cases hsch : String.mk a = "Bearer"
          · rw [if_neg (not_not.mpr hsch)]
            cases hv : ValidateToken rt now (String.mk b) with
            | error e => exact ⟨_, rfl⟩
            | ok claims =>
              exfalso
              apply h
              obtain ⟨hcs, hb⟩ := splitChars_pair ' ' authHeader.data a b hs
              refine ⟨String.mk b, claims, ?_, hb, hv⟩
              have ha : a = "Bearer".data := by rw [← hsch]
              apply String.ext
              rw [String.data_append, hcs, ha]
              simp
          · rw [if_pos hsch]
            exact ⟨_, rfl⟩

/-- C20: JWTAuthMiddleware calls the next handler if and only if the
Authorization header is `Bearer`, one space, and a token `t` without a space
for which ValidateToken succeeds; in that case it writes no response, does
not abort, and sets userID, username and role to the claims of `t`.  For
every other header (missing, empty, wrong scheme, wrong number of parts,
token rejected) it answers 401, aborts the chain, does not call the next
handler and sets none of the three context values. -/
theorem JWTAuthMiddleware_next_iff (rt : Runtime) (now : Nat) (authHeader : String) :
    ((JWTAuthMiddleware rt now authHeader).next = true ↔
      ∃ t claims, authHeader = "Bearer " ++ t ∧ ' ' ∉ t.data ∧
        ValidateToken rt now t = .ok claims) ∧
    (∀ t claims, authHeader = "Bearer " ++ t → ' ' ∉ t.data →
      ValidateToken rt now t = .ok claims →
      JWTAuthMiddleware rt now authHeader =
        { resp := none, aborted := false, next := true,
          ctx := { userID := some claims.UserID, username := some claims.Username,
                   role := some claims.Role } }) ∧
    ((¬ ∃ t claims, authHeader = "Bearer " ++ t ∧ ' ' ∉ t.data ∧
        ValidateToken rt now t = .ok claims) →
      (JWTAuthMiddleware rt now authHeader).resp.map (fun r => r.status) = some 401 ∧
      (JWTAuthMiddleware rt now authHeader).aborted = true ∧
      (JWTAuthMiddleware rt now authHeader).next = false ∧
      (JWTAuthMiddleware rt now authHeader).ctx =
        { userID := none, username := none, role := none }) := by
  refine ⟨⟨?_, ?_⟩, ?_, ?_⟩
  · intro hn
    by_contra hne
    obtain ⟨msg, hm⟩ := JWTAuthMiddleware_reject rt now authHeader hne
    rw [hm] at hn
    simp [reject] at hn
  · rintro ⟨t, claims, rfl, hsp, hv⟩
    rw [JWTAuthMiddleware_pass rt now t claims hsp hv]
  · rintro t claims rfl hsp hv
    exact JWTAuthMiddleware_pass rt now t claims hsp hv
  · intro hne
    obtain ⟨msg, hm⟩ := JWTAuthMiddleware_reject rt now authHeader hne
    rw [hm]
    exact ⟨rfl, rfl, rfl, rfl⟩

/-! ### The reference codec -/

theorem digitChar_isAsciiDigit (d : Nat) (h : d < 10) :
    isAsciiDigit (Char.ofNat (48 + d)) = true := by
  interval_cases d <;> decide

theorem digitChar_toNat (d : Nat) (h : d < 10) : (Char.ofNat (48 + d)).toNat - 48 = d := by
  interval_cases d <;> decide

theorem digitsFuel_lt (fuel n d : Nat) (h : d ∈ digitsFuel fuel n) : d < 10 := by
  induction fuel generalizing n with
  | zero => simp [digitsFuel] at h
  | succ fuel ih =>
    unfold digitsFuel at h
    by_cases hn : n < 10
    · rw [if_pos hn] at h
      simp at h
      omega
    · rw [if_neg hn] at h
      rcases List.mem_cons.mp h with e | m
      · omega
      · exact ih _ m

theorem digitsFuel_ne_nil (fuel n : Nat) : digitsFuel (fuel + 1) n ≠ [] := by
  unfold digitsFuel
  by_cases hn : n < 10
  · simp [hn]
  · simp [hn]

theorem digitsFuel_value (fuel n : Nat) (h : n < fuel) :
    (digitsFuel fuel n).foldr (fun d acc => d + 10 * acc) 0 = n := by
  induction fuel generalizing n with
  | zero => omega
  | succ fuel ih =>
    unfold digitsFuel
    by_cases hn : n < 10
    · simp [hn]
    · rw [if_neg hn, List.foldr_cons, ih (n / 10) (by omega)]
      omega

theorem decodeDigits (ds : List Nat) (h : ∀ d ∈ ds, d < 10) :
    ds.foldr
        (fun d (acc : Option Nat) =>
          acc.bind (fun a =>
            if isAsciiDigit (Char.ofNat (48 + d)) then
              some (10 * a + ((Char.ofNat (48 + d)).toNat - 48))
            else none))
        (some 0) =
      some (ds.foldr (fun d acc => d + 10 * acc) 0) := by
  induction ds with
  | nil => rfl
  | cons d ds ih =>
    have hd : d < 10 := h d (by simp)
    rw [List.foldr_cons, ih (fun x hx => h x (List.mem_cons_of_mem _ hx))]
    simp [digitChar_isAsciiDigit d hd, digitChar_toNat d hd]
    omega

theorem encodeNat_ne_nil (n : Nat) : encodeNat n ≠ [] := by
  unfold encodeNat
  simp [digitsFuel_ne_nil]

theorem decodeNat_encodeNat (n : Nat) : decodeNat (encodeNat n) = some n := by
  have hne := encodeNat_ne_nil n
  unfold decodeNat
  have hemp : (encodeNat n).isEmpty = false := by
    cases h : encodeNat n with
    | nil => exact absurd h hne
    | cons _ _ => rfl
  rw [hemp]
  simp only [Bool.false_eq_true, if_false]
  unfold encodeNat
  rw [List.foldl_map, List.foldl_reverse]
  rw [decodeDigits _ (fun d hd => digitsFuel_lt _ _ d hd), digitsFuel_value _ _ (by omega)]

theorem encodeNat_isAsciiDigit (n : Nat) (c : Char) (h : c ∈ encodeNat n) :
    isAsciiDigit c = true := by
  unfold encodeNat at h
  simp only [List.mem_map, List.mem_reverse] at h
  obtain ⟨d, hd, rfl⟩ := h
  exact digitChar_isAsciiDigit d (digitsFuel_lt _ _ d hd)

theorem splitChars_append_sep (sep : Char) (a rest : List Char) (h : sep ∉ a) :
    splitChars sep (a ++ sep :: rest) = a :: splitChars sep rest := by
  induction a with
  | nil => simp [splitChars]
  | cons c a ih =>
    have hc : c ≠ sep := fun e => h (by simp [e])
    have ha : sep ∉ a := fun m => h (List.mem_cons_of_mem _ m)
    rw [List.cons_append, splitChars, if_neg hc, ih ha]

theorem intercalate_cons_cons (sep : Char) (p q : List Char) (rest : List (List Char)) :
    List.intercalate [sep] (p :: q :: rest) = p ++ sep :: List.intercalate [sep] (q :: rest) := by
  simp [List.intercalate, List.intersperse]

theorem intercalate_singleton (sep : Char) (p : List Char) :
    List.intercalate [sep] [p] = p := by
  simp [List.intercalate, List.intersperse]

theorem splitChars_intercalate (sep : Char) (parts : List (List Char)) (hne : parts ≠ [])
    (h : ∀ p ∈ parts, sep ∉ p) :
    splitChars sep (List.intercalate [sep] parts) = parts := by
  induction parts with
  | nil => exact absurd rfl hne
  | cons p rest ih =>
    cases rest with
    | nil =>
      rw [intercalate_singleton]
      exact splitChars_of_not_mem sep p (h p (by simp))
    | cons q rest =>
      rw [intercalate_cons_cons, splitChars_append_sep sep p _ (h p (by simp)),
        ih (by simp) (fun x hx => h x (List.mem_cons_of_mem _ hx))]

theorem mem_intercalate (sep : Char) (P : Char → Prop) (parts : List (List Char))
    (hsep : P sep) (h : ∀ p ∈ parts, ∀ c ∈ p, P c) :
    ∀ c ∈ List.intercalate [sep] parts, P c := by
  induction parts with
  | nil => simp [List.intercalate, List.intersperse]
  | cons p rest ih =>
    cases rest with
    | nil =>
      rw [intercalate_singleton]
      exact h p (by simp)
    | cons q rest =>
      rw [intercalate_cons_cons]
      intro c hc
      rcases List.mem_append.mp hc with m | m
      · exact h p (by simp) c m
      · rcases List.mem_cons.mp m with e | m
        · rw [e]; exact hsep
        · exact ih (fun x hx => h x (List.mem_cons_of_mem _ hx)) c m

theorem mem_encodeText (s : String) (c : Char) (h : c ∈ encodeText s) :
    isAsciiDigit c = true ∨ c = '-' := by
  unfold encodeText at h
  refine mem_intercalate '-' (fun c => isAsciiDigit c = true ∨ c = '-') _ (Or.inr rfl) ?_ c h
  intro p hp c hc
  simp only [List.mem_map] at hp
  obtain ⟨x, -, rfl⟩ := hp
  exact Or.inl (encodeNat_isAsciiDigit _ c hc)

theorem mapM_decodeNat (ns : List Nat) :
    (ns.map encodeNat).mapM decodeNat = some ns := by
  induction ns with
  | nil => rfl
  | cons n ns ih =>
    rw [List.map_cons, List.mapM_cons, decodeNat_encodeNat, ih]
    rfl

theorem decodeText_encodeText (s : String) : decodeText (encodeText s) = some s := by
  unfold decodeText
  cases hd : s.data with
  | nil =>
    have hs : s = "" := String.ext hd
    subst hs
    rfl
  | cons c cs =>
    have hparts : (s.data.map (fun c => encodeNat c.toNat)) ≠ [] := by simp [hd]
    have hnosep : ∀ p ∈ s.data.map (fun c => encodeNat c.toNat), '-' ∉ p := by
      intro p hp hm
      simp only [List.mem_map] at hp
      obtain ⟨x, -, rfl⟩ := hp
      have := encodeNat_isAsciiDigit _ _ hm
      exact absurd this (by decide)
    have hsplit := splitChars_intercalate '-' _ hparts hnosep
    have hne : (encodeText s).isEmpty = false := by
      unfold encodeText
      rw [hd, List.map_cons]
      cases cs with
      | nil =>
        rw [List.map_nil, intercalate_singleton]
        cases h : encodeNat c.toNat with
        | nil => exact absurd h (encodeNat_ne_nil _)
        | cons _ _ => rfl
      | cons c' cs' =>
        rw [List.map_cons, intercalate_cons_cons]
        cases h : encodeNat c.toNat with
        | nil => exact absurd h (encodeNat_ne_nil _)
        | cons _ _ => rfl
    rw [hne]
    simp only [Bool.false_eq_true, if_false]
    unfold encodeText
    rw [hsplit]
    have hmap : s.data.map (fun c => encodeNat c.toNat) = (s.data.map Char.toNat).map encodeNat := by
      rw [List.map_map]; rfl
    rw [hmap, mapM_decodeNat]
    simp only [Option.map_some', List.map_map]
    congr 1
    apply String.ext
    have hid : (Char.ofNat ∘ Char.toNat) = id := by
      funext x
      simp [Char.ofNat_toNat]
    simp [hid]

theorem not_mem_of_digits (sep : Char) (hsep : isAsciiDigit sep = false) (cs : List Char)
    (h : ∀ c ∈ cs, isAsciiDigit c = true) : sep ∉ cs := by
  intro hm
  rw [h sep hm] at hsep
  cases hsep

theorem not_mem_encodeText (sep : Char) (hsep : isAsciiDigit sep = false) (hne : sep ≠ '-')
    (s : String) : sep ∉ encodeText s := by
  intro hm
  rcases mem_encodeText s sep hm with h | h
  · rw [h] at hsep; cases hsep
  · exact hne h

/-- The payload of a reference token as its four segments. -/
theorem encodeClaims_eq (c : Claims) :
    encodeClaims c =
      encodeNat c.UserID ++ '_' ::
        ((match c.ExpiresAt with | some e => encodeNat e | none => []) ++ '_' ::
          (encodeText c.Role ++ '_' :: encodeText c.Username)) := by
  unfold encodeClaims
  simp [List.append_assoc]

theorem not_mem_expiry (sep : Char) (hsep : isAsciiDigit sep = false) (exp : Option Nat) :
    sep ∉ (match exp with | some e => encodeNat e | none => []) := by
  cases exp with
  | none => simp
  | some e => exact not_mem_of_digits sep hsep _ (encodeNat_isAsciiDigit e)

theorem splitChars_encodeClaims (c : Claims) :
    splitChars '_' (encodeClaims c) =
      [encodeNat c.UserID, (match c.ExpiresAt with | some e => encodeNat e | none => []),
        encodeText c.Role, encodeText c.Username] := by
  rw [encodeClaims_eq,
    splitChars_append_sep '_' _ _
      (not_mem_of_digits '_' (by decide) _ (encodeNat_isAsciiDigit c.UserID)),
    splitChars_append_sep '_' _ _ (not_mem_expiry '_' (by decide) c.ExpiresAt),
    splitChars_append_sep '_' _ _ (not_mem_encodeText '_' (by decide) (by decide) c.Role),
    splitChars_of_not_mem '_' _ (not_mem_encodeText '_' (by decide) (by decide) c.Username)]

theorem decodeClaims_encodeClaims (c : Claims) : decodeClaims (encodeClaims c) = some c := by
  unfold decodeClaims
  rw [splitChars_encodeClaims]
  simp only [decodeNat_encodeNat, decodeText_encodeText]
  cases c with
  | mk uid username role exp =>
    cases exp with
    | none => simp
    | some e =>
      have hne : (encodeNat e).isEmpty = false := by
        cases h : encodeNat e with
        | nil => exact absurd h (encodeNat_ne_nil _)
        | cons _ _ => rfl
      simp [hne, decodeNat_encodeNat]

theorem not_mem_encodeClaims (c : Claims) : '.' ∉ encodeClaims c := by
  rw [encodeClaims_eq]
  intro hm
  rcases List.mem_append.mp hm with m | m
  · exact not_mem_of_digits '.' (by decide) _ (encodeNat_isAsciiDigit c.UserID) m
  · rcases List.mem_cons.mp m with e | m
    · exact absurd e (by decide)
    · rcases List.mem_append.mp m with m | m
      · exact not_mem_expiry '.' (by decide) c.ExpiresAt m
      · rcases List.mem_cons.mp m with e | m
        · exact absurd e (by decide)
        · rcases List.mem_append.mp m with m | m
          · exact not_mem_encodeText '.' (by decide) (by decide) c.Role m
          · rcases List.mem_cons.mp m with e | m
            · exact absurd e (by decide)
            · exact not_mem_encodeText '.' (by decide) (by decide) c.Username m

/-- The reference codec signs every claims object. -/
theorem refJWT_signs (key : String) (c : Claims) : ∃ T, refJWT.SignedString key c = .ok T :=
  ⟨_, rfl⟩

/-- The reference codec parses, under the same key and before the expiry,
what it has signed, as valid and with the claims unchanged. -/
theorem refJWT_parse_signed (key : String) (now : Nat) (c : Claims) (T : String) (e : Nat)
    (hs : refJWT.SignedString key c = .ok T) (he : c.ExpiresAt = some e)
    (hnow : now < e * second) :
    refJWT.ParseWithClaims key now T = .ok { Claims := c, Valid := true } := by
  have hT : T = String.mk
      (signingInput c ++ '.' :: encodeNat (checksum key (signingInput c))) := by
    have := hs
    simp only [refJWT] at this
    exact (Except.ok.inj this).symm
  have hsplit : splitChars '.' T.data =
      [['H', 'S', '2', '5', '6'], encodeClaims c,
        encodeNat (checksum key (signingInput c))] := by
    rw [hT]
    have hform : signingInput c ++ '.' :: encodeNat (checksum key (signingInput c)) =
        ['H', 'S', '2', '5', '6'] ++ '.' ::
          (encodeClaims c ++ '.' :: encodeNat (checksum key (signingInput c))) := by
      simp [signingInput]
    simp only [hform]
    rw [splitChars_append_sep '.' _ _ (by decide),
      splitChars_append_sep '.' _ _ (not_mem_encodeClaims c),
      splitChars_of_not_mem '.' _
        (not_mem_of_digits '.' (by decide) _ (encodeNat_isAsciiDigit _))]
  simp only [refJWT]
  rw [hsplit]
  simp only [decodeClaims_encodeClaims, decodeNat_encodeNat]
  simp [signingInput, he, hnow]

/-! ### Token round trip (C14) -/

/-- C14: for every user id, username and role, under a library that signs
with the process secret and that parses, under the same secret and before the
expiry, what it has signed, GenerateToken returns a token and ValidateToken,
at any time before the expiry of that token, succeeds on it and returns
claims with the issued user id, username and role. -/
theorem token_round_trip (rt : Runtime) (now now' userID : Nat) (username role : String)
    (hsign : ∀ c, ∃ T, rt.jwt.SignedString rt.jwtSecret c = .ok T)
    (hparse : ∀ c T e, rt.jwt.SignedString rt.jwtSecret c = .ok T → c.ExpiresAt = some e →
      now' < e * second →
      rt.jwt.ParseWithClaims rt.jwtSecret now' T = .ok { Claims := c, Valid := true })
    (hbefore : now' < NewNumericDate (now + 24 * hour) * second) :
    ∃ T claims, GenerateToken rt now userID username role = .ok T ∧
      ValidateToken rt now' T = .ok claims ∧
      claims.UserID = userID ∧ claims.Username = username ∧ claims.Role = role := by
  obtain ⟨T, hT⟩ := hsign
    { UserID := userID, Username := username, Role := role,
      ExpiresAt := some (NewNumericDate (now + 24 * hour)) }
  have hp := hparse _ T _ hT rfl hbefore
  refine ⟨T, Claims.mk userID username role (some (NewNumericDate (now + 24 * hour))),
    ?_, ?_, rfl, rfl, rfl⟩
  · unfold GenerateToken
    simp only [hT]
  · unfold ValidateToken
    rw [hp]
    rfl

/-- Witness for C14: the reference codec under the reference secret, a token
issued one second after `t₀` and validated five seconds later. -/
theorem token_round_trip_witness :
    (∀ c, ∃ T, refRuntime.jwt.SignedString refRuntime.jwtSecret c = .ok T) ∧
    (∀ c T e, refRuntime.jwt.SignedString refRuntime.jwtSecret c = .ok T →
      c.ExpiresAt = some e → t₀ + 6 * second < e * second →
      refRuntime.jwt.ParseWithClaims refRuntime.jwtSecret (t₀ + 6 * second) T =
        .ok { Claims := c, Valid := true }) ∧
    t₀ + 6 * second < NewNumericDate (t₀ + second + 24 * hour) * second ∧
    ∃ T claims, GenerateToken refRuntime (t₀ + second) 1 "a@b.com" "user" = .ok T ∧
      ValidateToken refRuntime (t₀ + 6 * second) T = .ok claims ∧
      claims.UserID = 1 ∧ claims.Username = "a@b.com" ∧ claims.Role = "user" :=
  ⟨fun c => refJWT_signs _ c,
    fun c T e hs he hn => refJWT_parse_signed _ _ c T e hs he hn,
    by decide,
    token_round_trip refRuntime (t₀ + second) (t₀ + 6 * second) 1 "a@b.com" "user"
      (fun c => refJWT_signs _ c)
      (fun c T e hs he hn => refJWT_parse_signed _ _ c T e hs he hn)
      (by decide)⟩

/-! ### Fresh tokens (C21) -/

/-- C21 (counterexample): `a@b.com` logs in at 1001 s and again 0.4 s later;
both logins answer 200 and the second returns the very token of the first. -/
theorem same_second_logins_same_token :
    firstLogin.resp = SendSuccess "Login successful" (some [("token", .text firstToken)]) ∧
    sameSecondLogin.resp = SendSuccess "Login successful" (some [("token", .text firstToken)]) ∧
    t₀ + second ≠ t₀ + second + 400000000 := by
  decide

/-- A login answered 200 with the token `T` has found a user and generated
`T` for the id, email and role of that user. -/
theorem LoginUser_token_generated (ctrl : AuthController σ) (rt : Runtime) (now : Nat)
    (body : Body) (s : σ) (email T : String) (u : User)
    (hresp : (LoginUser ctrl rt now body s).resp =
      SendSuccess "Login successful" (some [("token", .text T)]))
    (hfind : Call.FindByEmail email (.ok u) ∈ (LoginUser ctrl rt now body s).calls) :
    GenerateToken rt now u.ID u.Email u.Role = .ok T := by
  cases hb : ShouldBindJSON rt none body with
  | error err => rw [LoginUser_bind_error ctrl rt now body s err hb] at hfind; simp at hfind
  | ok req =>
    cases hv : ValidateUserInput req.Email req.Password with
    | error err => rw [LoginUser_input_error ctrl rt now body s req err hb hv] at hfind; simp at hfind
    | ok _ =>
      cases hf : ctrl.UserRepo.FindByEmail s req.Email with
      | error err =>
        rw [LoginUser_not_found ctrl rt now body s req err hb hv hf] at hfind; simp at hfind
      | ok user =>
        cases hc : ctrl.Hasher.ComparePasswords user.Password req.Password with
        | error err =>
          rw [LoginUser_wrong_password ctrl rt now body s req user err hb hv hf hc] at hresp
          simp [SendUnauthorized, SendSuccess] at hresp
        | ok _ =>
          cases hg : GenerateToken rt now user.ID user.Email user.Role with
          | error err =>
            rw [LoginUser_token_error ctrl rt now body s req user err hb hv hf hc hg] at hresp
            simp [SendInternalServerError, SendSuccess] at hresp
          | ok token =>
            cases hu : ctrl.UserRepo.UpdateUser now s { user with Token := token } with
            | error err =>
              rw [LoginUser_update_error ctrl rt now body s req user token err hb hv hf hc hg hu]
                at hresp
              simp [SendInternalServerError, SendSuccess] at hresp
            | ok s' =>
              rw [LoginUser_success ctrl rt now body s s' req user token hb hv hf hc hg hu]
                at hresp hfind
              simp at hfind
              obtain ⟨-, rfl⟩ := hfind
              simp [SendSuccess] at hresp
              rw [hg, hresp]

theorem GenerateToken_signed (rt : Runtime) (now userID : Nat) (username role T : String)
    (h : GenerateToken rt now userID username role = .ok T) :
    rt.jwt.SignedString rt.jwtSecret
      { UserID := userID, Username := username, Role := role,
        ExpiresAt := some (NewNumericDate (now + 24 * hour)) } = .ok T := by
  unfold GenerateToken at h
  simp only at h
  split at h
  · cases h
  · rename_i signedToken hs
    cases h
    exact hs

theorem NewNumericDate_pos (now : Nat) : 0 < NewNumericDate (now + 24 * hour) * second := by
  have h : 1 ≤ NewNumericDate (now + 24 * hour) := by
    unfold NewNumericDate
    apply (Nat.le_div_iff_mul_le (by decide)).mpr
    have : second ≤ 24 * hour := by decide
    omega
  have hs : 0 < second := by decide
  exact Nat.mul_pos h hs

/-- C21 (amended): when two LoginUser calls both answer 200 and have found
users with the same id, email and role, the token of the second equals the
token of the first if the two issue times plus 24 hours fall in the same
second; and, under a library that parses before the expiry what it has
signed, the two tokens differ if they fall in different seconds. -/
theorem LoginUser_same_token_iff_same_second (c₁ : AuthController σ₁) (c₂ : AuthController σ₂)
    (rt : Runtime) (now₁ now₂ : Nat) (body₁ body₂ : Body) (s₁ : σ₁) (s₂ : σ₂)
    (email₁ email₂ T₁ T₂ : String) (u₁ u₂ : User)
    (h₁ : (LoginUser c₁ rt now₁ body₁ s₁).resp =
      SendSuccess "Login successful" (some [("token", .text T₁)]))
    (h₂ : (LoginUser c₂ rt now₂ body₂ s₂).resp =
      SendSuccess "Login successful" (some [("token", .text T₂)]))
    (hf₁ : Call.FindByEmail email₁ (.ok u₁) ∈ (LoginUser c₁ rt now₁ body₁ s₁).calls)
    (hf₂ : Call.FindByEmail email₂ (.ok u₂) ∈ (LoginUser c₂ rt now₂ body₂ s₂).calls)
    (hid : u₁.ID = u₂.ID) (hemail : u₁.Email = u₂.Email) (hrole : u₁.Role = u₂.Role) :
    (NewNumericDate (now₁ + 24 * hour) = NewNumericDate (now₂ + 24 * hour) → T₁ = T₂) ∧
    ((∀ c T e now', rt.jwt.SignedString rt.jwtSecret c = .ok T → c.ExpiresAt = some e →
        now' < e * second →
        rt.jwt.ParseWithClaims rt.jwtSecret now' T = .ok { Claims := c, Valid := true }) →
      NewNumericDate (now₁ + 24 * hour) ≠ NewNumericDate (now₂ + 24 * hour) → T₁ ≠ T₂) := by
  have g₁ := GenerateToken_signed rt now₁ _ _ _ T₁
    (LoginUser_token_generated c₁ rt now₁ body₁ s₁ email₁ T₁ u₁ h₁ hf₁)
  have g₂ := GenerateToken_signed rt now₂ _ _ _ T₂
    (LoginUser_token_generated c₂ rt now₂ body₂ s₂ email₂ T₂ u₂ h₂ hf₂)
  rw [hid, hemail, hrole] at g₁
  constructor
  · intro hsec
    rw [hsec, g₂] at g₁
    exact (Except.ok.inj g₁).symm
  · intro hlaw hsec heq
    have p₁ := hlaw _ T₁ _ 0 g₁ rfl (NewNumericDate_pos now₁)
    have p₂ := hlaw _ T₂ _ 0 g₂ rfl (NewNumericDate_pos now₂)
    rw [heq, p₂] at p₁
    have hc := congrArg ParsedToken.Claims (Except.ok.inj p₁)
    have he := congrArg Claims.ExpiresAt hc
    simp only at he
    exact hsec (Option.some.inj he).symm

/-- Witness for C21 (amended): the first login of `a@b.com` and its login in
the same second. -/
theorem LoginUser_same_token_iff_same_second_witness :
    firstLogin.resp = SendSuccess "Login successful" (some [("token", .text firstToken)]) ∧
    sameSecondLogin.resp = SendSuccess "Login successful" (some [("token", .text firstToken)]) ∧
    Call.FindByEmail "a@b.com" (.ok aliceRow) ∈ firstLogin.calls ∧
    Call.FindByEmail "a@b.com"
      (.ok { aliceRow with Token := firstToken, UpdatedAt := t₀ + second }) ∈
        sameSecondLogin.calls ∧
    (NewNumericDate (t₀ + second + 24 * hour) =
        NewNumericDate (t₀ + second + 400000000 + 24 * hour) → firstToken = firstToken) :=
  ⟨by decide, by decide, by decide, by decide,
    (LoginUser_same_token_iff_same_second refController refController refRuntime (t₀ + second)
      (t₀ + second + 400000000) aliceBody aliceBody dbRegistered firstLogin.store
      "a@b.com" "a@b.com" firstToken firstToken aliceRow
      { aliceRow with Token := firstToken, UpdatedAt := t₀ + second }
      (by decide) (by decide) (by decide) (by decide) rfl rfl rfl).1⟩

/-! ### Registration and the unique token (C22) -/

/-- C22 (failing input): `a@b.com` is registered and has never logged in, so
its stored token is empty; the email `b@b.com` is used by no account and the
password `BobsPass22` is valid; RegisterUser answers 500 "Failed to create
user", not 201, and creates nothing.  Likewise, after `a@b.com` and
`c@b.com` have both logged in and `a@b.com` has logged out, the logout of
`c@b.com` answers 500 "Failed to logout" and its token stays in the store. -/
theorem registration_blocked_by_empty_token :
    dbRegistered.rows.map (fun u => (u.ID, u.Email, u.Token)) = [(1, "a@b.com", "")] ∧
    UserRepository.FindByEmail dbRegistered "b@b.com" = .error "record not found" ∧
    ShouldBindJSON refRuntime (some 8) (.ok { Email := "b@b.com", Password := "BobsPass22" }) =
      .ok { Email := "b@b.com", Password := "BobsPass22" } ∧
    IsValidPassword "BobsPass22" = true ∧
    secondRegistration.resp = SendInternalServerError "Failed to create user" ∧
    secondRegistration.store = dbRegistered ∧
    carolRegistered.resp.status = 201 ∧
    carolLogin.resp = SendSuccess "Login successful" (some [("token", .text carolToken)]) ∧
    aliceLogout.resp = SendSuccess "Logout successful" none ∧
    aliceLogout.store.rows.map (fun u => (u.ID, u.Email, u.Token)) =
      [(1, "a@b.com", ""), (2, "c@b.com", carolToken)] ∧
    carolLogout.resp = SendInternalServerError "Failed to logout" ∧
    carolLogout.store = aliceLogout.store := by
  decide

/-- Over the repository's table, no account can be created while a row holds
the empty token: the new row would hold it too. -/
theorem CreateUser_empty_token_taken (now : Nat) (db : DB) (user : User)
    (htoken : user.Token = "") (hrow : ∃ r ∈ db.rows, r.Token = "") :
    UserRepository.CreateUser now db user = .error "Error 1062 (23000): Duplicate entry" := by
  obtain ⟨r, hr, he⟩ := hrow
  unfold UserRepository.CreateUser
  simp only
  rw [if_pos]
  by_cases hid : r.ID = (if user.ID = 0 then db.nextID else user.ID)
  · apply Bool.or_eq_true_iff.mpr
    left
    rw [List.any_eq_true]
    exact ⟨r, hr, by simp [hid]⟩
  · apply Bool.or_eq_true_iff.mpr
    right
    unfold duplicateKey
    rw [List.any_eq_true]
    exact ⟨r, hr, by simp [hid, he, htoken]⟩

/-! ### Pagination (C23) -/

/-- C23 (counterexample): for `page=0` with `limit` absent both handlers pass
the offset -10 to the repository; so does GetAllUsers for the non-numeric
`page=abc`, which is parsed as 0 and not as the default 1; a negative page
gives a negative offset, and for a large page the product wraps around, as
does `page - 1` for the smallest page. -/
theorem offset_can_be_negative :
    (UserController.GetAllUsers noUsers (some "0") none).offset = -10 ∧
    (CustomerController.GetAllCustomers noCustomers (some "0") none).offset = -10 ∧
    Atoi "abc" = (0, some .ErrSyntax) ∧
    (UserController.GetAllUsers noUsers (some "abc") none).offset = -10 ∧
    (CustomerController.GetAllCustomers noCustomers (some "-2") (some "5")).offset = -15 ∧
    (UserController.GetAllUsers noUsers (some "4611686018427387905") (some "4")).offset = 0 ∧
    ((4611686018427387905 : Int) - 1) * 4 ≠ 0 ∧
    (UserController.GetAllUsers noUsers (some "-9223372036854775808") (some "1")).offset =
      9223372036854775807 := by
  decide

theorem wrapInt_eq (x : Int) (hlo : minInt ≤ x) (hhi : x ≤ maxInt) : wrapInt x = x := by
  unfold wrapInt
  unfold minInt at hlo
  unfold maxInt at hhi
  omega

theorem Atoi_range (s : String) : minInt ≤ (Atoi s).1 ∧ (Atoi s).1 ≤ maxInt := by
  unfold Atoi minInt maxInt
  simp only
  split
  · simp
  · split_ifs
    all_goals simp only
    all_goals omega

theorem GetAllUsers_args (GetAllUsers : Int → Int → Except String (List User × Int))
    (pageParam limitParam : Option String) :
    (UserController.GetAllUsers GetAllUsers pageParam limitParam).limit =
      (Atoi (DefaultQuery limitParam "10")).1 ∧
    (UserController.GetAllUsers GetAllUsers pageParam limitParam).offset =
      wrapInt (wrapInt ((Atoi (DefaultQuery pageParam "1")).1 - 1) *
        (Atoi (DefaultQuery limitParam "10")).1) := by
  unfold UserController.GetAllUsers
  simp only
  split <;> exact ⟨rfl, rfl⟩

theorem GetAllCustomers_args (GetAllCustomers : Int → Int → Except String (List Customer × Int))
    (pageParam limitParam : Option String) :
    (CustomerController.GetAllCustomers GetAllCustomers pageParam limitParam).limit =
      (Atoi (DefaultQuery limitParam "10")).1 ∧
    (CustomerController.GetAllCustomers GetAllCustomers pageParam limitParam).offset =
      wrapInt (wrapInt ((Atoi (DefaultQuery pageParam "1")).1 - 1) *
        (Atoi (DefaultQuery limitParam "10")).1) := by
  unfold CustomerController.GetAllCustomers
  simp only
  split <;> exact ⟨rfl, rfl⟩

theorem Atoi_syntax_error (s : String) (h : (Atoi s).2 = some .ErrSyntax) : (Atoi s).1 = 0 := by
  unfold Atoi at h ⊢
  simp only at h ⊢
  split
  · rfl
  · rename_i hok
    rw [if_neg hok] at h
    split_ifs at h <;> simp at h

/-- C23 (amended): for every value of the query parameters, GetAllUsers and
GetAllCustomers pass the repository the parsed limit and the offset
`(page - 1) * limit` computed in 64-bit `int` arithmetic, where page and
limit are what strconv.Atoi returns for the parameter: 1 and 10 when the
parameter is absent, 0 when it is present but not a number.  When page is at
least 1, limit is not negative and the product fits in an `int`, the offset
is exactly `(page - 1) * limit` and is not negative.  When page is at most 0
(as for a page that is not a number) and above the smallest `int`, limit is
positive and the product fits in an `int`, the offset is exactly
`(page - 1) * limit` and is negative. -/
theorem pagination_offset (GetAllUsers : Int → Int → Except String (List User × Int))
    (GetAllCustomers : Int → Int → Except String (List Customer × Int))
    (pageParam limitParam : Option String) :
    (UserController.GetAllUsers GetAllUsers pageParam limitParam).limit =
      (Atoi (DefaultQuery limitParam "10")).1 ∧
    (UserController.GetAllUsers GetAllUsers pageParam limitParam).offset =
      wrapInt (wrapInt ((Atoi (DefaultQuery pageParam "1")).1 - 1) *
        (Atoi (DefaultQuery limitParam "10")).1) ∧
    (CustomerController.GetAllCustomers GetAllCustomers pageParam limitParam).limit =
      (Atoi (DefaultQuery limitParam "10")).1 ∧
    (CustomerController.GetAllCustomers GetAllCustomers pageParam limitParam).offset =
      wrapInt (wrapInt ((Atoi (DefaultQuery pageParam "1")).1 - 1) *
        (Atoi (DefaultQuery limitParam "10")).1) ∧
    (Atoi (DefaultQuery none "1")).1 = 1 ∧ (Atoi (DefaultQuery none "10")).1 = 10 ∧
    (∀ value d, (Atoi (DefaultQuery (some value) d)).2 = some .ErrSyntax →
      (Atoi (DefaultQuery (some value) d)).1 = 0) ∧
    (1 ≤ (Atoi (DefaultQuery pageParam "1")).1 → 0 ≤ (Atoi (DefaultQuery limitParam "10")).1 →
      ((Atoi (DefaultQuery pageParam "1")).1 - 1) * (Atoi (DefaultQuery limitParam "10")).1
        ≤ maxInt →
      (UserController.GetAllUsers GetAllUsers pageParam limitParam).offset =
        ((Atoi (DefaultQuery pageParam "1")).1 - 1) * (Atoi (DefaultQuery limitParam "10")).1 ∧
      (CustomerController.GetAllCustomers GetAllCustomers pageParam limitParam).offset =
        ((Atoi (DefaultQuery pageParam "1")).1 - 1) * (Atoi (DefaultQuery limitParam "10")).1 ∧
      0 ≤ (UserController.GetAllUsers GetAllUsers pageParam limitParam).offset ∧
      0 ≤ (CustomerController.GetAllCustomers GetAllCustomers pageParam limitParam).offset) ∧
    ((Atoi (DefaultQuery pageParam "1")).1 ≤ 0 → minInt < (Atoi (DefaultQuery pageParam "1")).1 →
      0 < (Atoi (DefaultQuery limitParam "10")).1 →
      minInt ≤
        ((Atoi (DefaultQuery pageParam "1")).1 - 1) * (Atoi (DefaultQuery limitParam "10")).1 →
      (UserController.GetAllUsers GetAllUsers pageParam limitParam).offset =
        ((Atoi (DefaultQuery pageParam "1")).1 - 1) * (Atoi (DefaultQuery limitParam "10")).1 ∧
      (CustomerController.GetAllCustomers GetAllCustomers pageParam limitParam).offset =
        ((Atoi (DefaultQuery pageParam "1")).1 - 1) * (Atoi (DefaultQuery limitParam "10")).1 ∧
      (UserController.GetAllUsers GetAllUsers pageParam limitParam).offset < 0 ∧
      (CustomerController.GetAllCustomers GetAllCustomers pageParam limitParam).offset < 0) := by
  obtain ⟨hul, huo⟩ := GetAllUsers_args GetAllUsers pageParam limitParam
  obtain ⟨hcl, hco⟩ := GetAllCustomers_args GetAllCustomers pageParam limitParam
  have hrange := Atoi_range (DefaultQuery pageParam "1")
  refine ⟨hul, huo, hcl, hco, by decide, by decide, ?_, ?_, ?_⟩
  · intro value d h
    exact Atoi_syntax_error _ h
  · intro hpage hlimit hfit
    have hprod : 0 ≤ ((Atoi (DefaultQuery pageParam "1")).1 - 1) *
        (Atoi (DefaultQuery limitParam "10")).1 :=
      Int.mul_nonneg (by omega) hlimit
    have h1 : wrapInt ((Atoi (DefaultQuery pageParam "1")).1 - 1) =
        (Atoi (DefaultQuery pageParam "1")).1 - 1 := by
      apply wrapInt_eq
      · unfold minInt; omega
      · have := hrange.2; omega
    have h2 : wrapInt (((Atoi (DefaultQuery pageParam "1")).1 - 1) *
        (Atoi (DefaultQuery limitParam "10")).1) =
        ((Atoi (DefaultQuery pageParam "1")).1 - 1) * (Atoi (DefaultQuery limitParam "10")).1 := by
      apply wrapInt_eq
      · unfold minInt; omega
      · exact hfit
    rw [huo, hco, h1, h2]
    exact ⟨rfl, rfl, hprod, hprod⟩
  · intro hpage hmin hlimit hfit
    have hprod : ((Atoi (DefaultQuery pageParam "1")).1 - 1) *
        (Atoi (DefaultQuery limitParam "10")).1 < 0 :=
      Int.mul_neg_of_neg_of_pos (by omega) hlimit
    have h1 : wrapInt ((Atoi (DefaultQuery pageParam "1")).1 - 1) =
        (Atoi (DefaultQuery pageParam "1")).1 - 1 := by
      apply wrapInt_eq
      · omega
      · unfold maxInt; omega
    have h2 : wrapInt (((Atoi (DefaultQuery pageParam "1")).1 - 1) *
        (Atoi (DefaultQuery limitParam "10")).1) =
        ((Atoi (DefaultQuery pageParam "1")).1 - 1) * (Atoi (DefaultQuery limitParam "10")).1 := by
      apply wrapInt_eq
      · exact hfit
      · unfold maxInt; omega
    rw [huo, hco, h1, h2]
    exact ⟨rfl, rfl, hprod, hprod⟩

end GoBackend
